import Mathlib

/-!
# sairedis generic SET: response wait, single set and bulk set

Shallow embedding of `lib/src/sai_redis_generic_set.cpp`:

* `internal_api_wait_for_response` (lines 5-80),
* `internal_redis_generic_set` (lines 82-109),
* `internal_redis_bulk_generic_set` (lines 111-191).

The process-wide globals (`g_syncMode`, `g_record`, `g_asicState`,
`g_redisGetConsumer`, the recording sink) are the fields of `World`, and every
function is a state transformer `World → sai_status_t × World`.

The collaborators that live outside this file of the repository (attribute
encoder, the serializers, `joinFieldValues`, the value of
`GET_RESPONSE_TIMEOUT`) are the fields of `Env`; the theorems hold for every
`Env`.  `SWSS_LOG_*` calls have no effect on the modelled state and are left out.
-/

namespace SaiRedis

/-! ## Data model -/

/-- The SAI status code, a signed integer (`int32_t` in SAI). -/
abbrev sai_status_t := Int

/-- The SAI value of `SAI_STATUS_SUCCESS`. -/
def SAI_STATUS_SUCCESS : sai_status_t := 0

/-- The SAI value of `SAI_STATUS_FAILURE`. -/
def SAI_STATUS_FAILURE : sai_status_t := -1

/-- The SAI object type enumeration, by its numeric value. -/
abbrev sai_object_type_t := Nat

/-- The `api` argument of the wait: the four quad APIs. -/
inductive sai_common_api_t
  | SAI_COMMON_API_CREATE
  | SAI_COMMON_API_REMOVE
  | SAI_COMMON_API_SET
  | SAI_COMMON_API_GET
  deriving DecidableEq, Repr

/-- A `swss::FieldValueTuple`: `fvField` is `.1`, `fvValue` is `.2`. -/
abbrev FieldValueTuple := String × String

/-- A `swss::KeyOpFieldsValuesTuple`, read with `kfvKey`, `kfvOp`, `kfvFieldsValues`. -/
structure KeyOpFieldsValuesTuple where
  key : String
  op : String
  fieldsValues : List FieldValueTuple
  deriving DecidableEq, Repr

/-- The collaborators the file calls but does not define. -/
structure Env where
  /-- The type `sai_attribute_t`. -/
  Attr : Type
  /-- The encoder `SaiAttributeList::serialize_attr_list(object_type, count, attr, countOnly)`. -/
  serialize_attr_list : sai_object_type_t → Nat → Attr → Bool → List FieldValueTuple
  sai_serialize_object_type : sai_object_type_t → String
  sai_serialize_status : sai_status_t → String
  sai_deserialize_status : String → sai_status_t
  joinFieldValues : List FieldValueTuple → String
  /-- The timeout handed to every `select`, in milliseconds. -/
  GET_RESPONSE_TIMEOUT : Nat

/-- One call `g_asicState->set(key, values, op)`. -/
structure SetCall where
  key : String
  values : List FieldValueTuple
  op : String
  deriving DecidableEq, Repr

/-- What the response consumer will see next: a message that becomes ready `delay`
milliseconds after the previous event, or a failure of the multiplexer after `delay`
milliseconds.  A queue that is exhausted stays silent for ever. -/
inductive Inbound
  | message (delay : Nat) (kco : KeyOpFieldsValuesTuple)
  | error (delay : Nat)
  deriving DecidableEq, Repr

/-- The time after which the event happens. -/
def Inbound.delay : Inbound → Nat
  | .message d _ => d
  | .error d => d

/-- The same event seen `t` milliseconds later. -/
def Inbound.later (t : Nat) : Inbound → Inbound
  | .message d kco => .message (d - t) kco
  | .error d => .error (d - t)

/-- The return values of `swss::Select::select`. -/
inductive SelectResult
  | OBJECT
  | ERROR
  | TIMEOUT
  deriving DecidableEq, Repr

/-- The globals the three functions read and write, with the traces of their calls to the
channel and to the recorder. -/
structure World where
  /-- The global `g_syncMode`. -/
  g_syncMode : Bool
  /-- The global `g_record`. -/
  g_record : Bool
  /-- The global `g_redisGetConsumer`: the inbound events still to come, oldest first. -/
  inbound : List Inbound
  /-- The calls of `g_asicState->set` made so far, oldest first. -/
  published : List SetCall
  /-- The arguments of the calls of `recordLine` made so far, oldest first. -/
  recording : List String
  /-- Ghost: the number of calls of `s.select`. -/
  selects : Nat
  /-- Ghost: the messages taken by `g_redisGetConsumer->pop`, oldest first. -/
  popped : List KeyOpFieldsValuesTuple
  /-- Ghost: the milliseconds spent blocked in `s.select`. -/
  elapsed : Nat
  /-- Ghost: the number of calls of `internal_api_wait_for_response`. -/
  waits : Nat
  deriving DecidableEq, Repr

/-! ## Channel and recorder primitives -/

/-- A call `recordLine(line)`: the line is appended to the recording. -/
def recordLine (line : String) (w : World) : World :=
  { w with recording := w.recording ++ [line] }

/-- A call `g_asicState->set(key, values, op)`: one publish on the request channel. -/
def asicState_set (key : String) (values : List FieldValueTuple) (op : String)
    (w : World) : World :=
  { w with published := w.published ++ [⟨key, values, op⟩] }

/-- The result of `s.select(&sel, T)` when `ev` is the next inbound event: the event
happens if it is due before the timeout `T` elapses. -/
def select (T : Nat) (ev : Inbound) : SelectResult :=
  if ev.delay < T then
    match ev with
    | .message _ _ => .OBJECT
    | .error _ => .ERROR
  else .TIMEOUT

/-- The tuple `g_redisGetConsumer->pop(kco)` delivers when `ev` is at the head of the
queue (an empty tuple when the head is not a message). -/
def pop : Inbound → KeyOpFieldsValuesTuple
  | .message _ kco => kco
  | .error _ => ⟨"", "", []⟩

/-! ## internal_api_wait_for_response -/

/-- Lines 72-79: the code after the loop. -/
def wait_failed (w : World) : sai_status_t × World :=
  let w1 := if w.g_record then recordLine "G|SAI_STATUS_FAILURE" w else w
  (SAI_STATUS_FAILURE, w1)

/-- Lines 26-70: the `while (true)` loop, by recursion on the inbound events still to
come.  Every iteration calls `select` once; only an `OBJECT` result whose message is not
tagged "getresponse" iterates again. -/
def wait_loop (E : Env) : List Inbound → World → sai_status_t × World
  | [], w =>
    -- nothing arrives any more: select returns TIMEOUT after the whole bound
    wait_failed { w with
      inbound := []
      selects := w.selects + 1
      elapsed := w.elapsed + E.GET_RESPONSE_TIMEOUT }
  | ev :: rest, w =>
    let result := select E.GET_RESPONSE_TIMEOUT ev
    let w1 := { w with
      selects := w.selects + 1
      elapsed := w.elapsed + min ev.delay E.GET_RESPONSE_TIMEOUT }
    if result = SelectResult.OBJECT then
      let kco := pop ev
      let w2 := { w1 with inbound := rest, popped := w1.popped ++ [kco] }
      if kco.op != "getresponse" then
        wait_loop E rest w2
      else
        let status := E.sai_deserialize_status kco.key
        let w3 :=
          if w2.g_record then
            recordLine ("G|" ++ kco.key ++ "|" ++ E.joinFieldValues kco.fieldsValues) w2
          else w2
        (status, w3)
    else if result = SelectResult.ERROR then
      wait_failed { w1 with inbound := rest }
    else
      wait_failed { w1 with inbound := ev.later E.GET_RESPONSE_TIMEOUT :: rest }

/-- Lines 5-80. The argument `api` is only logged. -/
def internal_api_wait_for_response (E : Env) (_api : sai_common_api_t) (w : World) :
    sai_status_t × World :=
  let w0 := { w with waits := w.waits + 1 }
  if !w0.g_syncMode then
    (SAI_STATUS_SUCCESS, w0)
  else
    wait_loop E w0.inbound w0

/-! ## internal_redis_generic_set -/

/-- Lines 82-109. -/
def internal_redis_generic_set (E : Env) (object_type : sai_object_type_t)
    (serialized_object_id : String) (attr : E.Attr) (w : World) : sai_status_t × World :=
  let entry := E.serialize_attr_list object_type 1 attr false
  let str_object_type := E.sai_serialize_object_type object_type
  let key := str_object_type ++ ":" ++ serialized_object_id
  let w1 :=
    if w.g_record then recordLine ("s|" ++ key ++ "|" ++ E.joinFieldValues entry) w else w
  let w2 := asicState_set key entry "set" w1
  internal_api_wait_for_response E .SAI_COMMON_API_SET w2

/-! ## internal_redis_bulk_generic_set -/

/-- Lines 131-158: the `for` loop over `serialized_object_ids`, at index `idx` with the
object ids from `idx` on still to visit.  `attr_list` and `object_statuses` are the two
C arrays, read at `idx`.  The result is `(entries, entriesWithStatus)`. -/
def bulk_collect (E : Env) (object_type : sai_object_type_t) (attr_list : Nat → E.Attr)
    (object_statuses : Nat → sai_status_t) :
    Nat → List String → List FieldValueTuple → List FieldValueTuple →
      List FieldValueTuple × List FieldValueTuple
  | _, [], entries, entriesWithStatus => (entries, entriesWithStatus)
  | idx, id :: ids, entries, entriesWithStatus =>
    let entry := E.serialize_attr_list object_type 1 (attr_list idx) false
    let str_attr := E.joinFieldValues entry
    let str_status := E.sai_serialize_status (object_statuses idx)
    let joined := str_attr ++ "|" ++ str_status
    let entriesWithStatus1 := entriesWithStatus ++ [(id, joined)]
    if object_statuses idx != SAI_STATUS_SUCCESS then
      bulk_collect E object_type attr_list object_statuses (idx + 1) ids entries
        entriesWithStatus1
    else
      bulk_collect E object_type attr_list object_statuses (idx + 1) ids
        (entries ++ [(id, str_attr)]) entriesWithStatus1

/-- Lines 167-174: the `joined` string of the bulk record line. -/
def bulk_joined (entriesWithStatus : List FieldValueTuple) : String :=
  entriesWithStatus.foldl (fun joined e => joined ++ ("||" ++ e.1 ++ "|" ++ e.2)) ""

/-- Lines 111-191. -/
def internal_redis_bulk_generic_set (E : Env) (object_type : sai_object_type_t)
    (serialized_object_ids : List String) (attr_list : Nat → E.Attr)
    (object_statuses : Nat → sai_status_t) (w : World) : sai_status_t × World :=
  let str_object_type := E.sai_serialize_object_type object_type
  let collected :=
    bulk_collect E object_type attr_list object_statuses 0 serialized_object_ids [] []
  let entries := collected.1
  let entriesWithStatus := collected.2
  let w1 :=
    if w.g_record then
      recordLine ("S|" ++ str_object_type ++ bulk_joined entriesWithStatus) w
    else w
  let key := str_object_type ++ ":" ++ toString entries.length
  let w2 := if entries.length != 0 then asicState_set key entries "bulkset" w1 else w1
  internal_api_wait_for_response E .SAI_COMMON_API_CREATE w2

/-! ## A concrete environment for examples -/

/-- Modelled from the spec: `joinFieldValues` (defined in the recorder of the repository,
outside this file) writes each pair as `field=value` and separates the pairs by `|`
(record-line format `s|<key>|<field>=<value>|<field>=<value>...`). -/
def joinFieldValues_spec (values : List FieldValueTuple) : String :=
  String.intercalate "|" (values.map fun fv => fv.1 ++ "=" ++ fv.2)

/-- A small environment used to evaluate the functions on concrete inputs: an attribute
is a name with a value and is encoded as that one pair; the timeout is 360000 ms. -/
def exampleEnv : Env where
  Attr := String × String
  serialize_attr_list := fun _ _ attr _ => [attr]
  sai_serialize_object_type := fun ot =>
    if ot = 1 then "ROUTE_ENTRY" else if ot = 2 then "FDB_ENTRY" else "NULL"
  sai_serialize_status := fun s =>
    if s = SAI_STATUS_SUCCESS then "SAI_STATUS_SUCCESS" else "SAI_STATUS_FAILURE"
  sai_deserialize_status := fun s =>
    if s = "SAI_STATUS_SUCCESS" then SAI_STATUS_SUCCESS else SAI_STATUS_FAILURE
  joinFieldValues := joinFieldValues_spec
  GET_RESPONSE_TIMEOUT := 360000

/-- A world with nothing published, recorded or consumed yet. -/
def World.init (g_syncMode g_record : Bool) (inbound : List Inbound) : World :=
  ⟨g_syncMode, g_record, inbound, [], [], 0, [], 0, 0⟩

/-- A message that has nothing to do with the awaited response. -/
def notifyMsg : KeyOpFieldsValuesTuple := ⟨"port_state_change", "ntf", []⟩

/-- A response carrying `SAI_STATUS_SUCCESS`. -/
def okResponse : KeyOpFieldsValuesTuple := ⟨"SAI_STATUS_SUCCESS", "getresponse", []⟩

/-! ## Vocabulary of the statements -/

/-- The next event is a message that is ready before the timeout `T` and is not tagged
"getresponse": the loop pops it and iterates. -/
def unrelatedReady (T : Nat) (ev : Inbound) : Bool :=
  decide (select T ev = SelectResult.OBJECT) && (pop ev).op != "getresponse"

/-- The world after the loop has popped the events `pre`, one `select` each. -/
def World.afterSkipping (pre : List Inbound) (w : World) : World :=
  { w with
    selects := w.selects + pre.length
    elapsed := w.elapsed + (pre.map Inbound.delay).sum
    popped := w.popped ++ pre.map pop }

/-- The payload list in the words of the specification: the pairs
`(objectIds[i], join (encode attr_list[i]))` of the indices `i` whose precheck status is
`SAI_STATUS_SUCCESS`, in index order. -/
def payload_spec (E : Env) (object_type : sai_object_type_t) (objectIds : List String)
    (attr_list : Nat → E.Attr) (object_statuses : Nat → sai_status_t) :
    List FieldValueTuple :=
  (objectIds.enum.filter fun p => decide (object_statuses p.1 = SAI_STATUS_SUCCESS)).map
    fun p => (p.2, E.joinFieldValues (E.serialize_attr_list object_type 1 (attr_list p.1) false))

/-- The audit list in the words of the specification: for every index `i`, in order,
the pair `(objectIds[i], join (encode attr_list[i]) ++ "|" ++ serialize precheck[i])`. -/
def audit_spec (E : Env) (object_type : sai_object_type_t) (objectIds : List String)
    (attr_list : Nat → E.Attr) (object_statuses : Nat → sai_status_t) :
    List FieldValueTuple :=
  objectIds.enum.map fun p =>
    (p.2, E.joinFieldValues (E.serialize_attr_list object_type 1 (attr_list p.1) false)
      ++ "|" ++ E.sai_serialize_status (object_statuses p.1))

/-- The bulk record line in the words of the specification: "S|", the object type, then
for every index in order "||", the object id, "|", the joined attributes, "|", the
precheck status. -/
def bulk_line_spec (E : Env) (object_type : sai_object_type_t) (objectIds : List String)
    (attr_list : Nat → E.Attr) (object_statuses : Nat → sai_status_t) : String :=
  "S|" ++ E.sai_serialize_object_type object_type ++
    String.join (objectIds.enum.map fun p =>
      "||" ++ p.2 ++ "|"
        ++ E.joinFieldValues (E.serialize_attr_list object_type 1 (attr_list p.1) false)
        ++ "|" ++ E.sai_serialize_status (object_statuses p.1))

/-- The number of indices below `n` whose precheck status is `SAI_STATUS_SUCCESS`. -/
def successCount (n : Nat) (object_statuses : Nat → sai_status_t) : Nat :=
  ((List.range n).filter fun i => decide (object_statuses i = SAI_STATUS_SUCCESS)).length

/-- Two outcomes agree on everything the recorder does not own: the returned status,
the publishes, the inbound queue, the popped messages, the count of `select` calls and
the time spent in them. -/
def sameEffects (a b : sai_status_t × World) : Prop :=
  a.1 = b.1 ∧ a.2.published = b.2.published ∧ a.2.inbound = b.2.inbound ∧
    a.2.popped = b.2.popped ∧ a.2.selects = b.2.selects ∧ a.2.elapsed = b.2.elapsed

instance (a b : sai_status_t × World) : Decidable (sameEffects a b) := by
  unfold sameEffects
  infer_instance

/-- The environment of the worked example of the specification: as `exampleEnv`, with
the statuses written `SUCCESS` and `FAILURE` as the example writes them. -/
def specExampleEnv : Env :=
  { exampleEnv with
    sai_serialize_status := fun s =>
      if s = SAI_STATUS_SUCCESS then "SUCCESS" else "FAILURE"
    sai_deserialize_status := fun s =>
      if s = "SUCCESS" then SAI_STATUS_SUCCESS else SAI_STATUS_FAILURE }

/-- The messages of an inbound queue, in order, without the multiplexer failures and the
delays. -/
def messagesOf : List Inbound → List KeyOpFieldsValuesTuple
  | [] => []
  | Inbound.message _ kco :: rest => kco :: messagesOf rest
  | Inbound.error _ :: rest => messagesOf rest

/-! ## The wait loop -/

theorem wait_loop_inbound_irrelevant (E : Env) (q x : List Inbound) (w : World) :
    wait_loop E q { w with inbound := x } = wait_loop E q w := by
  cases q <;> rfl

theorem unrelatedReady_iff (T : Nat) (ev : Inbound) :
    unrelatedReady T ev = true ↔
      select T ev = SelectResult.OBJECT ∧ (pop ev).op ≠ "getresponse" := by
  simp [unrelatedReady]

theorem select_object_delay {T : Nat} {ev : Inbound} (h : select T ev = SelectResult.OBJECT) :
    ev.delay < T := by
  unfold select at h
  by_contra hlt
  simp [hlt] at h

theorem wait_loop_unrelated (E : Env) (ev : Inbound) (rest : List Inbound) (w : World)
    (h : unrelatedReady E.GET_RESPONSE_TIMEOUT ev = true) :
    wait_loop E (ev :: rest) w = wait_loop E rest (w.afterSkipping [ev]) := by
  obtain ⟨hsel, hop⟩ := (unrelatedReady_iff _ _).1 h
  have hd := select_object_delay hsel
  rw [← wait_loop_inbound_irrelevant E rest rest (w.afterSkipping [ev])]
  simp [wait_loop, hsel, hop, World.afterSkipping, Nat.min_eq_left (Nat.le_of_lt hd)]

theorem afterSkipping_cons (ev : Inbound) (pre : List Inbound) (w : World) :
    (w.afterSkipping [ev]).afterSkipping pre = w.afterSkipping (ev :: pre) := by
  simp [World.afterSkipping, Nat.add_assoc, Nat.add_comm 1]

/-- The loop pops a run of ready unrelated messages and carries on with what follows. -/
theorem wait_loop_skip (E : Env) (pre rest : List Inbound) (w : World)
    (h : ∀ ev ∈ pre, unrelatedReady E.GET_RESPONSE_TIMEOUT ev = true) :
    wait_loop E (pre ++ rest) w = wait_loop E rest (w.afterSkipping pre) := by
  induction pre generalizing w with
  | nil =>
    have : w.afterSkipping [] = w := by simp [World.afterSkipping]
    rw [this]; rfl
  | cons ev pre ih =>
    have hev := h ev (List.mem_cons_self _ _)
    have hpre : ∀ e ∈ pre, unrelatedReady E.GET_RESPONSE_TIMEOUT e = true :=
      fun e he => h e (List.mem_cons_of_mem _ he)
    rw [List.cons_append, wait_loop_unrelated E ev _ w hev, ih _ hpre, afterSkipping_cons]

/-- With sync-mode enabled the wait is the loop, entered on the inbound queue. -/
theorem wait_sync (E : Env) (api : sai_common_api_t) (w : World)
    (hsync : w.g_syncMode = true) :
    internal_api_wait_for_response E api w =
      wait_loop E w.inbound { w with waits := w.waits + 1 } := by
  simp [internal_api_wait_for_response, hsync]

/-- The success exit: a ready message tagged "getresponse" ends the loop. -/
theorem wait_loop_response (E : Env) (d : Nat) (kco : KeyOpFieldsValuesTuple)
    (rest : List Inbound) (w : World) (hd : d < E.GET_RESPONSE_TIMEOUT)
    (hop : kco.op = "getresponse") :
    wait_loop E (Inbound.message d kco :: rest) w =
      (E.sai_deserialize_status kco.key,
        { w with
          inbound := rest
          selects := w.selects + 1
          elapsed := w.elapsed + d
          popped := w.popped ++ [kco]
          recording := w.recording ++
            (if w.g_record then
              ["G|" ++ kco.key ++ "|" ++ E.joinFieldValues kco.fieldsValues]
            else []) }) := by
  cases hrec : w.g_record <;>
    simp [wait_loop, select, pop, Inbound.delay, hd, hop, hrec, recordLine,
      Nat.min_eq_left (Nat.le_of_lt hd)]

/-- The failure exit: when the next `select` does not return `OBJECT` the loop ends
after that one `select`, having popped nothing. -/
theorem wait_loop_no_object (E : Env) (q : List Inbound) (w : World)
    (h : ∀ ev, q.head? = some ev → select E.GET_RESPONSE_TIMEOUT ev ≠ SelectResult.OBJECT) :
    (wait_loop E q w).1 = SAI_STATUS_FAILURE ∧
      (wait_loop E q w).2.selects = w.selects + 1 ∧
      (wait_loop E q w).2.popped = w.popped ∧
      (wait_loop E q w).2.elapsed ≤ w.elapsed + E.GET_RESPONSE_TIMEOUT ∧
      (wait_loop E q w).2.published = w.published ∧
      (wait_loop E q w).2.waits = w.waits ∧
      (wait_loop E q w).2.g_record = w.g_record ∧
      (wait_loop E q w).2.recording =
        w.recording ++ (if w.g_record then ["G|SAI_STATUS_FAILURE"] else []) := by
  cases q with
  | nil => cases hrec : w.g_record <;> simp [wait_loop, wait_failed, hrec, recordLine]
  | cons ev rest =>
    have hsel := h ev rfl
    have hmin : min ev.delay E.GET_RESPONSE_TIMEOUT ≤ E.GET_RESPONSE_TIMEOUT :=
      Nat.min_le_right _ _
    cases hrec : w.g_record <;>
      by_cases herr : select E.GET_RESPONSE_TIMEOUT ev = SelectResult.ERROR <;>
      simp [wait_loop, wait_failed, hsel, herr, hrec, recordLine, hmin]

/-- C1 (tag discrimination): with sync-mode enabled, when the inbound queue starts with
any finite run of ready messages not tagged "getresponse" followed by a ready message
tagged "getresponse" with key `k`, `internal_api_wait_for_response` returns
`sai_deserialize_status k`, whatever the skipped messages carry. -/
theorem C1_wait_returns_status_of_tagged_response (E : Env) (api : sai_common_api_t)
    (w : World) (pre : List Inbound) (d : Nat) (kco : KeyOpFieldsValuesTuple)
    (rest : List Inbound)
    (hsync : w.g_syncMode = true)
    (hpre : ∀ ev ∈ pre, unrelatedReady E.GET_RESPONSE_TIMEOUT ev = true)
    (hd : d < E.GET_RESPONSE_TIMEOUT)
    (hop : kco.op = "getresponse")
    (hq : w.inbound = pre ++ Inbound.message d kco :: rest) :
    (internal_api_wait_for_response E api w).1 = E.sai_deserialize_status kco.key := by
  rw [wait_sync E api w hsync, hq, wait_loop_skip E pre _ _ hpre,
    wait_loop_response E d kco rest _ hd hop]

/-- C1 at a concrete input: two notifications, then a response carrying
`SAI_STATUS_SUCCESS`, then further traffic. -/
theorem C1_wait_returns_status_of_tagged_response_witness :
    (internal_api_wait_for_response exampleEnv sai_common_api_t.SAI_COMMON_API_SET
        (World.init true true
          [Inbound.message 5 notifyMsg, Inbound.message 0 ⟨"x", "flush", [("a", "b")]⟩,
            Inbound.message 7 okResponse, Inbound.error 1])).1
      = exampleEnv.sai_deserialize_status okResponse.key :=
  C1_wait_returns_status_of_tagged_response exampleEnv _
    (World.init true true
      [Inbound.message 5 notifyMsg, Inbound.message 0 ⟨"x", "flush", [("a", "b")]⟩,
        Inbound.message 7 okResponse, Inbound.error 1])
    [Inbound.message 5 notifyMsg, Inbound.message 0 ⟨"x", "flush", [("a", "b")]⟩]
    7 okResponse [Inbound.error 1] rfl (by decide) (by decide) rfl rfl

/-- A run of ready events costs less than one timeout each. -/
theorem sum_delay_le (T : Nat) (pre : List Inbound)
    (h : ∀ ev ∈ pre, unrelatedReady T ev = true) :
    (pre.map Inbound.delay).sum ≤ pre.length * T := by
  induction pre with
  | nil => simp
  | cons ev pre ih =>
    have hev := select_object_delay ((unrelatedReady_iff _ _).1 (h ev (List.mem_cons_self _ _))).1
    have := ih (fun e he => h e (List.mem_cons_of_mem _ he))
    simp only [List.map_cons, List.sum_cons, List.length_cons, Nat.succ_mul]
    omega

/-- The whole failing run of the loop: `pre` is popped, then one `select` fails. -/
theorem wait_loop_fails_after_skipping (E : Env) (w : World) (pre rest : List Inbound)
    (hpre : ∀ ev ∈ pre, unrelatedReady E.GET_RESPONSE_TIMEOUT ev = true)
    (hrest : ∀ ev, rest.head? = some ev →
      select E.GET_RESPONSE_TIMEOUT ev ≠ SelectResult.OBJECT) :
    (wait_loop E (pre ++ rest) w).1 = SAI_STATUS_FAILURE ∧
      (wait_loop E (pre ++ rest) w).2.selects = w.selects + pre.length + 1 ∧
      (wait_loop E (pre ++ rest) w).2.popped = w.popped ++ pre.map pop ∧
      (wait_loop E (pre ++ rest) w).2.elapsed ≤
        w.elapsed + (pre.length + 1) * E.GET_RESPONSE_TIMEOUT ∧
      (wait_loop E (pre ++ rest) w).2.recording =
        w.recording ++ (if w.g_record then ["G|SAI_STATUS_FAILURE"] else []) := by
  rw [wait_loop_skip E pre _ _ hpre]
  obtain ⟨h1, h2, h3, h4, -, -, -, h8⟩ :=
    wait_loop_no_object E rest (World.afterSkipping pre w) hrest
  have hsum := sum_delay_le _ pre hpre
  refine ⟨h1, ?_, ?_, ?_, ?_⟩
  · rw [h2]; simp [World.afterSkipping]
  · rw [h3]; simp [World.afterSkipping]
  · refine le_trans h4 ?_
    simp only [World.afterSkipping, Nat.succ_mul]
    omega
  · rw [h8]; simp [World.afterSkipping]

/-- The whole failing run of the wait: `pre` is popped, then one `select` fails. -/
theorem wait_fails_after_skipping (E : Env) (api : sai_common_api_t) (w : World)
    (pre rest : List Inbound)
    (hsync : w.g_syncMode = true)
    (hq : w.inbound = pre ++ rest)
    (hpre : ∀ ev ∈ pre, unrelatedReady E.GET_RESPONSE_TIMEOUT ev = true)
    (hrest : ∀ ev, rest.head? = some ev →
      select E.GET_RESPONSE_TIMEOUT ev ≠ SelectResult.OBJECT) :
    (internal_api_wait_for_response E api w).1 = SAI_STATUS_FAILURE ∧
      (internal_api_wait_for_response E api w).2.selects = w.selects + pre.length + 1 ∧
      (internal_api_wait_for_response E api w).2.popped = w.popped ++ pre.map pop ∧
      (internal_api_wait_for_response E api w).2.elapsed ≤
        w.elapsed + (pre.length + 1) * E.GET_RESPONSE_TIMEOUT ∧
      (internal_api_wait_for_response E api w).2.recording =
        w.recording ++ (if w.g_record then ["G|SAI_STATUS_FAILURE"] else []) := by
  have h := wait_loop_fails_after_skipping E { w with waits := w.waits + 1 } pre rest
    hpre hrest
  rw [wait_sync E api w hsync]
  simp only [hq] at h ⊢
  exact h

/-- C6 (failure exit): with sync-mode enabled, when after any number of discarded
messages the readiness wait returns something other than `OBJECT` (timeout or error),
`internal_api_wait_for_response` returns `SAI_STATUS_FAILURE`, that failing `select` is
its last one (no retry), and the recording grows by exactly the line
"G|SAI_STATUS_FAILURE" when recording is enabled and by nothing otherwise. -/
theorem C6_wait_failure_exit (E : Env) (api : sai_common_api_t) (w : World)
    (pre rest : List Inbound)
    (hsync : w.g_syncMode = true)
    (hq : w.inbound = pre ++ rest)
    (hpre : ∀ ev ∈ pre, unrelatedReady E.GET_RESPONSE_TIMEOUT ev = true)
    (hrest : ∀ ev, rest.head? = some ev →
      select E.GET_RESPONSE_TIMEOUT ev ≠ SelectResult.OBJECT) :
    (internal_api_wait_for_response E api w).1 = SAI_STATUS_FAILURE ∧
      (internal_api_wait_for_response E api w).2.selects = w.selects + pre.length + 1 ∧
      (internal_api_wait_for_response E api w).2.popped = w.popped ++ pre.map pop ∧
      (internal_api_wait_for_response E api w).2.recording =
        w.recording ++ (if w.g_record then ["G|SAI_STATUS_FAILURE"] else []) := by
  obtain ⟨h1, h2, h3, -, h5⟩ := wait_fails_after_skipping E api w pre rest hsync hq hpre hrest
  exact ⟨h1, h2, h3, h5⟩

/-- C6 at a concrete input: one notification is discarded, then the multiplexer reports
an error; recording is enabled. -/
theorem C6_wait_failure_exit_witness :
    (internal_api_wait_for_response exampleEnv sai_common_api_t.SAI_COMMON_API_SET
        (World.init true true [Inbound.message 5 notifyMsg, Inbound.error 2])).1
        = SAI_STATUS_FAILURE ∧
      (internal_api_wait_for_response exampleEnv sai_common_api_t.SAI_COMMON_API_SET
        (World.init true true [Inbound.message 5 notifyMsg, Inbound.error 2])).2.selects
        = 0 + 1 + 1 ∧
      (internal_api_wait_for_response exampleEnv sai_common_api_t.SAI_COMMON_API_SET
        (World.init true true [Inbound.message 5 notifyMsg, Inbound.error 2])).2.popped
        = [] ++ [notifyMsg] ∧
      (internal_api_wait_for_response exampleEnv sai_common_api_t.SAI_COMMON_API_SET
        (World.init true true [Inbound.message 5 notifyMsg, Inbound.error 2])).2.recording
        = [] ++ ["G|SAI_STATUS_FAILURE"] :=
  C6_wait_failure_exit exampleEnv _
    (World.init true true [Inbound.message 5 notifyMsg, Inbound.error 2])
    [Inbound.message 5 notifyMsg] [Inbound.error 2] rfl rfl (by decide) (by decide)

/-- C8 (sync-mode bypass of the wait): with sync-mode disabled,
`internal_api_wait_for_response` returns `SAI_STATUS_SUCCESS` for every `api` and every
world, makes no `select` and no `pop` (the inbound queue is unchanged) and appends no
line to the recording, whatever `g_record` is. -/
theorem C8_wait_bypass_when_async (E : Env) (api : sai_common_api_t) (w : World)
    (hsync : w.g_syncMode = false) :
    (internal_api_wait_for_response E api w).1 = SAI_STATUS_SUCCESS ∧
      (internal_api_wait_for_response E api w).2.inbound = w.inbound ∧
      (internal_api_wait_for_response E api w).2.selects = w.selects ∧
      (internal_api_wait_for_response E api w).2.popped = w.popped ∧
      (internal_api_wait_for_response E api w).2.elapsed = w.elapsed ∧
      (internal_api_wait_for_response E api w).2.published = w.published ∧
      (internal_api_wait_for_response E api w).2.recording = w.recording := by
  simp [internal_api_wait_for_response, hsync]

/-- C8 at a concrete input: recording enabled and a response already queued. -/
theorem C8_wait_bypass_when_async_witness :
    (internal_api_wait_for_response exampleEnv sai_common_api_t.SAI_COMMON_API_GET
        (World.init false true [Inbound.message 0 okResponse])).1 = SAI_STATUS_SUCCESS ∧
      (internal_api_wait_for_response exampleEnv sai_common_api_t.SAI_COMMON_API_GET
        (World.init false true [Inbound.message 0 okResponse])).2.recording = [] :=
  have h := C8_wait_bypass_when_async exampleEnv sai_common_api_t.SAI_COMMON_API_GET
    (World.init false true [Inbound.message 0 okResponse]) rfl
  ⟨h.1, h.2.2.2.2.2.2⟩

/-- When no message of the queue is tagged "getresponse", the event that follows the
leading run of ready unrelated messages does not make `select` return `OBJECT`. -/
theorem no_object_after_run (T : Nat) (q : List Inbound)
    (hno : ∀ d kco, Inbound.message d kco ∈ q → kco.op ≠ "getresponse") :
    ∀ ev, (q.dropWhile (unrelatedReady T)).head? = some ev →
      select T ev ≠ SelectResult.OBJECT := by
  intro ev hev hsel
  have hnot := List.head?_dropWhile_not (unrelatedReady T) q
  rw [hev] at hnot
  have hmem : ev ∈ q :=
    (List.dropWhile_sublist (unrelatedReady T)).subset (List.mem_of_mem_head? hev)
  cases ev with
  | message d kco =>
    have hop := hno d kco hmem
    have : unrelatedReady T (Inbound.message d kco) = true :=
      (unrelatedReady_iff _ _).2 ⟨hsel, by simpa [pop] using hop⟩
    simp [this] at hnot
  | error d =>
    unfold select at hsel
    by_cases hlt : (Inbound.error d).delay < T <;> simp [hlt] at hsel

/-- C4 as stated fails: with sync-mode enabled and no "getresponse" message in the
queue, one unrelated message that becomes ready 359999 ms into a 360000 ms timeout
makes the wait call `select` twice and block 719999 ms in total, so neither "at most one
timed readiness wait" nor "at most one timeout bound" holds for every inbound stream. -/
theorem C4_counterexample_wait_exceeds_one_timeout :
    ¬ (∀ (E : Env) (api : sai_common_api_t) (w : World),
        w.g_syncMode = true →
        (∀ d kco, Inbound.message d kco ∈ w.inbound → kco.op ≠ "getresponse") →
        (internal_api_wait_for_response E api w).1 = SAI_STATUS_FAILURE ∧
          (internal_api_wait_for_response E api w).2.elapsed ≤
            w.elapsed + E.GET_RESPONSE_TIMEOUT ∧
          (internal_api_wait_for_response E api w).2.selects ≤ w.selects + 1) := by
  intro h
  have h1 := h exampleEnv sai_common_api_t.SAI_COMMON_API_SET
    (World.init true false [Inbound.message 359999 notifyMsg]) rfl
    (by
      intro d kco hm
      have hk : kco = notifyMsg := by
        simp [World.init] at hm
        exact hm.2
      subst hk
      decide)
  revert h1
  decide

/-- C4, amended: with sync-mode enabled and no message tagged "getresponse" in the
inbound queue, `internal_api_wait_for_response` returns `SAI_STATUS_FAILURE` after
exactly `j + 1` calls of `select`, where `j` is the length of the leading run of
unrelated messages that are ready before a `select` times out, and the time it has
blocked is at most `(j + 1)` timeout bounds; with `j = 0` that is one bound. -/
theorem C4_wait_failure_one_timeout_per_select (E : Env) (api : sai_common_api_t)
    (w : World)
    (hsync : w.g_syncMode = true)
    (hno : ∀ d kco, Inbound.message d kco ∈ w.inbound → kco.op ≠ "getresponse") :
    (internal_api_wait_for_response E api w).1 = SAI_STATUS_FAILURE ∧
      (internal_api_wait_for_response E api w).2.selects =
        w.selects + (w.inbound.takeWhile (unrelatedReady E.GET_RESPONSE_TIMEOUT)).length + 1 ∧
      (internal_api_wait_for_response E api w).2.elapsed ≤
        w.elapsed +
          ((w.inbound.takeWhile (unrelatedReady E.GET_RESPONSE_TIMEOUT)).length + 1) *
            E.GET_RESPONSE_TIMEOUT := by
  obtain ⟨h1, h2, -, h4, -⟩ := wait_fails_after_skipping E api w
    (w.inbound.takeWhile (unrelatedReady E.GET_RESPONSE_TIMEOUT))
    (w.inbound.dropWhile (unrelatedReady E.GET_RESPONSE_TIMEOUT)) hsync
    (List.takeWhile_append_dropWhile _ _).symm
    (fun ev hev => List.mem_takeWhile_imp hev)
    (no_object_after_run _ _ hno)
  exact ⟨h1, h2, h4⟩

/-- C4 amended, at a concrete input: two ready notifications, then silence: three
calls of `select`. -/
theorem C4_wait_failure_one_timeout_per_select_witness :
    (internal_api_wait_for_response exampleEnv sai_common_api_t.SAI_COMMON_API_SET
        (World.init true false [Inbound.message 10 notifyMsg, Inbound.message 20 notifyMsg])).1
        = SAI_STATUS_FAILURE ∧
      (internal_api_wait_for_response exampleEnv sai_common_api_t.SAI_COMMON_API_SET
        (World.init true false
          [Inbound.message 10 notifyMsg, Inbound.message 20 notifyMsg])).2.selects = 3 :=
  have h := C4_wait_failure_one_timeout_per_select exampleEnv
    sai_common_api_t.SAI_COMMON_API_SET
    (World.init true false [Inbound.message 10 notifyMsg, Inbound.message 20 notifyMsg]) rfl
    (by
      intro d kco hm
      have hk : kco = notifyMsg := by
        simp [World.init] at hm
        rcases hm with h | h <;> exact h.2
      subst hk
      decide)
  ⟨h.1, h.2.1⟩

/-! ## What the wait leaves alone -/

/-- The loop never publishes, never touches the flags or the call counter, and appends
at most one line, which starts with "G|". -/
theorem wait_loop_frame (E : Env) (q : List Inbound) (w : World) :
    (wait_loop E q w).2.published = w.published ∧
      (wait_loop E q w).2.waits = w.waits ∧
      (wait_loop E q w).2.g_syncMode = w.g_syncMode ∧
      (wait_loop E q w).2.g_record = w.g_record ∧
      ∃ g : List String, (wait_loop E q w).2.recording = w.recording ++ g ∧
        g.length ≤ 1 ∧ (w.g_record = false → g = []) ∧ ∀ l ∈ g, ∃ r, l = "G|" ++ r := by
  induction q generalizing w with
  | nil =>
    cases hrec : w.g_record
    · simp [wait_loop, wait_failed, hrec]
    · refine ⟨by simp [wait_loop, wait_failed, hrec, recordLine],
        by simp [wait_loop, wait_failed, hrec, recordLine],
        by simp [wait_loop, wait_failed, hrec, recordLine],
        by simp [wait_loop, wait_failed, hrec, recordLine],
        ["G|SAI_STATUS_FAILURE"], by simp [wait_loop, wait_failed, hrec, recordLine],
        by simp, by simp, ?_⟩
      intro l hl
      exact ⟨"SAI_STATUS_FAILURE", by simpa using hl⟩
  | cons ev rest ih =>
    by_cases hobj : select E.GET_RESPONSE_TIMEOUT ev = SelectResult.OBJECT
    · by_cases hop : (pop ev).op = "getresponse"
      · cases hrec : w.g_record
        · simp [wait_loop, hobj, hop, hrec]
        · refine ⟨by simp [wait_loop, hobj, hop, hrec, recordLine],
            by simp [wait_loop, hobj, hop, hrec, recordLine],
            by simp [wait_loop, hobj, hop, hrec, recordLine],
            by simp [wait_loop, hobj, hop, hrec, recordLine],
            ["G|" ++ (pop ev).key ++ "|" ++ E.joinFieldValues (pop ev).fieldsValues],
            by simp [wait_loop, hobj, hop, hrec, recordLine], by simp, by simp, ?_⟩
          intro l hl
          refine ⟨(pop ev).key ++ "|" ++ E.joinFieldValues (pop ev).fieldsValues, ?_⟩
          have hl1 : l = "G|" ++ (pop ev).key ++ "|" ++ E.joinFieldValues (pop ev).fieldsValues := by
            simpa using hl
          rw [hl1]
          simp only [String.append_assoc]
      · have hu : unrelatedReady E.GET_RESPONSE_TIMEOUT ev = true :=
          (unrelatedReady_iff _ _).2 ⟨hobj, hop⟩
        rw [wait_loop_unrelated E ev rest w hu]
        exact ih (w.afterSkipping [ev])
    · have h := wait_loop_no_object E (ev :: rest) w (by
        intro e he
        have : ev = e := by simpa using he
        subst this
        exact hobj)
      obtain ⟨-, -, -, -, h5, h6, h7, h8⟩ := h
      have hs : (wait_loop E (ev :: rest) w).2.g_syncMode = w.g_syncMode := by
        cases hrec : w.g_record <;>
          by_cases herr : select E.GET_RESPONSE_TIMEOUT ev = SelectResult.ERROR <;>
          simp [wait_loop, wait_failed, hobj, herr, hrec, recordLine]
      refine ⟨h5, h6, hs, h7, _, h8, ?_, ?_, ?_⟩
      · split <;> simp
      · intro hf; simp [hf]
      · intro l hl
        refine ⟨"SAI_STATUS_FAILURE", ?_⟩
        split at hl
        · simpa using hl
        · simp at hl

/-- The wait never publishes, counts itself once, and appends at most one line, which
starts with "G|", and none when recording is disabled. -/
theorem wait_frame (E : Env) (api : sai_common_api_t) (w : World) :
    (internal_api_wait_for_response E api w).2.published = w.published ∧
      (internal_api_wait_for_response E api w).2.waits = w.waits + 1 ∧
      ∃ g : List String,
        (internal_api_wait_for_response E api w).2.recording = w.recording ++ g ∧
        g.length ≤ 1 ∧ (w.g_record = false → g = []) ∧ ∀ l ∈ g, ∃ r, l = "G|" ++ r := by
  cases hsync : w.g_syncMode
  · refine ⟨by simp [internal_api_wait_for_response, hsync],
      by simp [internal_api_wait_for_response, hsync], [], ?_, by simp, by simp, by simp⟩
    simp [internal_api_wait_for_response, hsync]
  · rw [wait_sync E api w hsync]
    obtain ⟨h1, h2, -, -, g, h5, h6, h7, h8⟩ :=
      wait_loop_frame E w.inbound { w with waits := w.waits + 1 }
    exact ⟨h1, h2, g, h5, h6, h7, h8⟩

/-! ## The bulk loop -/

/-- The `for` loop started at index `idx` appends, to what it was given, the filtered
and the full image of the object ids it still has to visit. -/
theorem bulk_collect_eq (E : Env) (object_type : sai_object_type_t)
    (attr_list : Nat → E.Attr) (object_statuses : Nat → sai_status_t)
    (ids : List String) (idx : Nat) (entries entriesWithStatus : List FieldValueTuple) :
    bulk_collect E object_type attr_list object_statuses idx ids entries entriesWithStatus =
      (entries ++
        ((ids.enumFrom idx).filter fun p =>
            decide (object_statuses p.1 = SAI_STATUS_SUCCESS)).map
          (fun p =>
            (p.2, E.joinFieldValues (E.serialize_attr_list object_type 1 (attr_list p.1) false))),
       entriesWithStatus ++
        (ids.enumFrom idx).map fun p =>
          (p.2, E.joinFieldValues (E.serialize_attr_list object_type 1 (attr_list p.1) false)
            ++ "|" ++ E.sai_serialize_status (object_statuses p.1))) := by
  induction ids generalizing idx entries entriesWithStatus with
  | nil => simp [bulk_collect]
  | cons id ids ih =>
    by_cases hs : object_statuses idx = SAI_STATUS_SUCCESS
    · simp [bulk_collect, hs, ih, List.enumFrom_cons]
    · simp [bulk_collect, hs, ih, List.enumFrom_cons]

/-- The loop of the source computes the payload list and the audit list of the
specification. -/
theorem bulk_collect_spec (E : Env) (object_type : sai_object_type_t)
    (ids : List String) (attr_list : Nat → E.Attr) (object_statuses : Nat → sai_status_t) :
    bulk_collect E object_type attr_list object_statuses 0 ids [] [] =
      (payload_spec E object_type ids attr_list object_statuses,
        audit_spec E object_type ids attr_list object_statuses) := by
  rw [bulk_collect_eq]
  simp [payload_spec, audit_spec, List.enum]

theorem foldl_append_init (l : List String) (init : String) :
    l.foldl (fun r s => r ++ s) init = init ++ l.foldl (fun r s => r ++ s) "" := by
  induction l generalizing init with
  | nil => simp
  | cons a l ih =>
    simp only [List.foldl_cons, String.empty_append]
    rw [ih (init ++ a), ih a, String.append_assoc]

theorem string_join_cons (a : String) (l : List String) :
    String.join (a :: l) = a ++ String.join l := by
  simp only [String.join, List.foldl_cons, String.empty_append]
  exact foldl_append_init l a

theorem foldl_joined (f : FieldValueTuple → String) (l : List FieldValueTuple)
    (init : String) :
    l.foldl (fun joined e => joined ++ f e) init = init ++ String.join (l.map f) := by
  induction l generalizing init with
  | nil => simp [String.join]
  | cons a l ih =>
    simp only [List.foldl_cons, List.map_cons, string_join_cons]
    rw [ih, String.append_assoc]

/-- The `joined` string is the concatenation of one piece per audit entry. -/
theorem bulk_joined_eq (l : List FieldValueTuple) :
    bulk_joined l = String.join (l.map fun e => "||" ++ e.1 ++ "|" ++ e.2) := by
  unfold bulk_joined
  rw [foldl_joined (fun e => "||" ++ e.1 ++ "|" ++ e.2) l ""]
  simp

/-- The record line the source builds from the audit list is the line of the
specification. -/
theorem bulk_line_eq (E : Env) (object_type : sai_object_type_t)
    (ids : List String) (attr_list : Nat → E.Attr) (object_statuses : Nat → sai_status_t) :
    "S|" ++ E.sai_serialize_object_type object_type ++
        bulk_joined (audit_spec E object_type ids attr_list object_statuses) =
      bulk_line_spec E object_type ids attr_list object_statuses := by
  rw [bulk_joined_eq]
  simp [audit_spec, bulk_line_spec, List.map_map, Function.comp_def, String.append_assoc]

/-- The bulk set is one wait, entered after the record line and the publish. -/
theorem bulk_set_eq (E : Env) (object_type : sai_object_type_t)
    (ids : List String) (attr_list : Nat → E.Attr) (object_statuses : Nat → sai_status_t)
    (w : World) :
    internal_redis_bulk_generic_set E object_type ids attr_list object_statuses w =
      internal_api_wait_for_response E sai_common_api_t.SAI_COMMON_API_CREATE
        { w with
          recording := w.recording ++
            (if w.g_record then
              [bulk_line_spec E object_type ids attr_list object_statuses]
            else [])
          published := w.published ++
            (if (payload_spec E object_type ids attr_list object_statuses).length = 0 then []
            else
              [⟨E.sai_serialize_object_type object_type ++ ":" ++
                  toString (payload_spec E object_type ids attr_list object_statuses).length,
                payload_spec E object_type ids attr_list object_statuses, "bulkset"⟩]) } := by
  unfold internal_redis_bulk_generic_set
  simp only [bulk_collect_spec, bulk_line_eq]
  obtain ⟨sm, rc, inb, pub, recd, sel, pp, el, wt⟩ := w
  cases rc <;>
    by_cases hlen : (payload_spec E object_type ids attr_list object_statuses).length = 0 <;>
    simp [hlen, recordLine, asicState_set]

/-- The payload list has one entry per index with a `SAI_STATUS_SUCCESS` precheck. -/
theorem payload_spec_length (E : Env) (object_type : sai_object_type_t)
    (ids : List String) (attr_list : Nat → E.Attr) (object_statuses : Nat → sai_status_t) :
    (payload_spec E object_type ids attr_list object_statuses).length =
      successCount ids.length object_statuses := by
  unfold payload_spec successCount
  rw [List.length_map, ← List.enum_map_fst ids, List.filter_map, List.length_map]
  rfl

/-! ## The bulk set -/

/-- C2 (bulk partition): for every object-id list and every precheck-status sequence,
the `entries` list the loop of `internal_redis_bulk_generic_set` builds is exactly the
sub-sequence of the pairs `(objectIds[i], join (encode attr_list[i]))` at the indices with
precheck `SAI_STATUS_SUCCESS`, in order, and it is the only thing the call publishes
(nothing when it is empty); the `entriesWithStatus` list has one entry for every index,
in order, whatever the status, and it is what the record line is built from. -/
theorem C2_bulk_partition (E : Env) (object_type : sai_object_type_t)
    (ids : List String) (attr_list : Nat → E.Attr) (object_statuses : Nat → sai_status_t)
    (w : World) :
    bulk_collect E object_type attr_list object_statuses 0 ids [] [] =
        (payload_spec E object_type ids attr_list object_statuses,
          audit_spec E object_type ids attr_list object_statuses) ∧
      (audit_spec E object_type ids attr_list object_statuses).length = ids.length ∧
      (internal_redis_bulk_generic_set E object_type ids attr_list object_statuses
          w).2.published =
        w.published ++
          (if (payload_spec E object_type ids attr_list object_statuses).length = 0 then []
          else
            [⟨E.sai_serialize_object_type object_type ++ ":" ++
                toString (payload_spec E object_type ids attr_list object_statuses).length,
              payload_spec E object_type ids attr_list object_statuses, "bulkset"⟩]) ∧
      ∃ g : List String,
        (internal_redis_bulk_generic_set E object_type ids attr_list object_statuses
            { w with g_record := true }).2.recording =
          w.recording ++
            ("S|" ++ E.sai_serialize_object_type object_type ++
              bulk_joined (audit_spec E object_type ids attr_list object_statuses)) :: g := by
  refine ⟨bulk_collect_spec E object_type ids attr_list object_statuses,
    by simp [audit_spec], ?_, ?_⟩
  · rw [bulk_set_eq, (wait_frame E _ _).1]
  · rw [bulk_set_eq, bulk_line_eq]
    obtain ⟨-, -, g, hg, -⟩ := wait_frame E sai_common_api_t.SAI_COMMON_API_CREATE
      { ({ w with g_record := true } : World) with
        recording := w.recording ++
          (if ({ w with g_record := true } : World).g_record then
            [bulk_line_spec E object_type ids attr_list object_statuses]
          else [])
        published := w.published ++
          (if (payload_spec E object_type ids attr_list object_statuses).length = 0 then []
          else
            [⟨E.sai_serialize_object_type object_type ++ ":" ++
                toString (payload_spec E object_type ids attr_list object_statuses).length,
              payload_spec E object_type ids attr_list object_statuses, "bulkset"⟩]) }
    exact ⟨g, by rw [hg]; simp⟩

/-- No index below `n` passes the precheck: the payload list is empty. -/
theorem payload_spec_length_of_all_failed (E : Env) (object_type : sai_object_type_t)
    (ids : List String) (attr_list : Nat → E.Attr) (object_statuses : Nat → sai_status_t)
    (hfail : ∀ i, i < ids.length → object_statuses i ≠ SAI_STATUS_SUCCESS) :
    (payload_spec E object_type ids attr_list object_statuses).length = 0 := by
  rw [payload_spec_length]
  unfold successCount
  rw [List.length_eq_zero, List.filter_eq_nil_iff]
  intro i hi
  simpa using hfail i (List.mem_range.1 hi)

/-- C5 (empty batch): when the item list is empty or every precheck status differs from
`SAI_STATUS_SUCCESS`, `internal_redis_bulk_generic_set` publishes nothing and calls
`internal_api_wait_for_response` exactly once. -/
theorem C5_bulk_nothing_to_send (E : Env) (object_type : sai_object_type_t)
    (ids : List String) (attr_list : Nat → E.Attr) (object_statuses : Nat → sai_status_t)
    (w : World)
    (hfail : ∀ i, i < ids.length → object_statuses i ≠ SAI_STATUS_SUCCESS) :
    (internal_redis_bulk_generic_set E object_type ids attr_list object_statuses
        w).2.published = w.published ∧
      (internal_redis_bulk_generic_set E object_type ids attr_list object_statuses
        w).2.waits = w.waits + 1 := by
  have hlen := payload_spec_length_of_all_failed E object_type ids attr_list object_statuses
    hfail
  rw [bulk_set_eq]
  obtain ⟨h1, h2, -⟩ := wait_frame E sai_common_api_t.SAI_COMMON_API_CREATE
    { w with
      recording := w.recording ++
        (if w.g_record then
          [bulk_line_spec E object_type ids attr_list object_statuses]
        else [])
      published := w.published ++
        (if (payload_spec E object_type ids attr_list object_statuses).length = 0 then []
        else
          [⟨E.sai_serialize_object_type object_type ++ ":" ++
              toString (payload_spec E object_type ids attr_list object_statuses).length,
            payload_spec E object_type ids attr_list object_statuses, "bulkset"⟩]) }
  refine ⟨?_, h2⟩
  rw [h1]
  simp [hlen]

/-- C5 at two concrete inputs: two items that both failed the precheck, and no item. -/
theorem C5_bulk_nothing_to_send_witness :
    ((internal_redis_bulk_generic_set exampleEnv 2 ["a", "b"]
          (fun i => ("k", toString i)) (fun _ => SAI_STATUS_FAILURE)
          (World.init true true [Inbound.message 1 okResponse])).2.published = [] ∧
      (internal_redis_bulk_generic_set exampleEnv 2 ["a", "b"]
          (fun i => ("k", toString i)) (fun _ => SAI_STATUS_FAILURE)
          (World.init true true [Inbound.message 1 okResponse])).2.waits = 0 + 1) ∧
    ((internal_redis_bulk_generic_set exampleEnv 2 []
          (fun i => ("k", toString i)) (fun _ => SAI_STATUS_SUCCESS)
          (World.init true true [Inbound.message 1 okResponse])).2.published = [] ∧
      (internal_redis_bulk_generic_set exampleEnv 2 []
          (fun i => ("k", toString i)) (fun _ => SAI_STATUS_SUCCESS)
          (World.init true true [Inbound.message 1 okResponse])).2.waits = 0 + 1) :=
  ⟨C5_bulk_nothing_to_send exampleEnv 2 ["a", "b"] (fun i => ("k", toString i))
      (fun _ => SAI_STATUS_FAILURE) (World.init true true [Inbound.message 1 okResponse])
      (fun _ _ => (by decide : SAI_STATUS_FAILURE ≠ SAI_STATUS_SUCCESS)),
    C5_bulk_nothing_to_send exampleEnv 2 [] (fun i => ("k", toString i))
      (fun _ => SAI_STATUS_SUCCESS) (World.init true true [Inbound.message 1 okResponse])
      (fun i hi => absurd hi (Nat.not_lt_zero i))⟩

/-- C9 (bulk publish): when at least one precheck status is `SAI_STATUS_SUCCESS`,
`internal_redis_bulk_generic_set` publishes exactly once, with tag "bulkset" and key
`serialize object_type ++ ":" ++ decimal n`, where `n` is at once the number of indices
with a `SAI_STATUS_SUCCESS` precheck and the length of the published entry list. -/
theorem C9_bulk_publishes_once (E : Env) (object_type : sai_object_type_t)
    (ids : List String) (attr_list : Nat → E.Attr) (object_statuses : Nat → sai_status_t)
    (w : World) (i : Nat)
    (hi : i < ids.length) (hs : object_statuses i = SAI_STATUS_SUCCESS) :
    (internal_redis_bulk_generic_set E object_type ids attr_list object_statuses
        w).2.published =
      w.published ++
        [⟨E.sai_serialize_object_type object_type ++ ":" ++
            toString (successCount ids.length object_statuses),
          payload_spec E object_type ids attr_list object_statuses, "bulkset"⟩] ∧
      (payload_spec E object_type ids attr_list object_statuses).length =
        successCount ids.length object_statuses ∧
      0 < successCount ids.length object_statuses := by
  have hlen := payload_spec_length E object_type ids attr_list object_statuses
  have hpos : 0 < successCount ids.length object_statuses := by
    unfold successCount
    apply List.length_pos_of_mem (a := i)
    simp [List.mem_filter, hi, hs]
  refine ⟨?_, hlen, hpos⟩
  rw [bulk_set_eq, (wait_frame E _ _).1, hlen]
  simp [Nat.pos_iff_ne_zero.1 hpos]

/-- C9 at a concrete input: of three items the first and the last passed the precheck. -/
theorem C9_bulk_publishes_once_witness :
    (internal_redis_bulk_generic_set exampleEnv 2 ["a", "b", "c"]
        (fun i => ("k", toString i))
        (fun i => if i = 1 then SAI_STATUS_FAILURE else SAI_STATUS_SUCCESS)
        (World.init false false [])).2.published =
      [] ++ [⟨"FDB_ENTRY:2", [("a", "k=0"), ("c", "k=2")], "bulkset"⟩] ∧
    (payload_spec exampleEnv 2 ["a", "b", "c"] (fun i => ("k", toString i))
        (fun i => if i = 1 then SAI_STATUS_FAILURE else SAI_STATUS_SUCCESS)).length = 2 ∧
    0 < 2 :=
  C9_bulk_publishes_once exampleEnv 2 ["a", "b", "c"] (fun i => ("k", toString i))
    (fun i => if i = 1 then SAI_STATUS_FAILURE else SAI_STATUS_SUCCESS)
    (World.init false false []) 0 (by decide) (by decide)

/-- C10 (bulk record line): with recording enabled, for a batch of any size
`internal_redis_bulk_generic_set` enters the wait with exactly one more line in the
recording, the line "S|" ++ serialize object_type followed, for each index in order, by
"||" ++ objectIds[i] ++ "|" ++ join (encode attr_list[i]) ++ "|" ++
serialize_status object_statuses[i]; whatever the wait appends after it starts with
"G|"; and for the empty batch the line is exactly "S|" ++ serialize object_type. -/
theorem C10_bulk_record_line (E : Env) (object_type : sai_object_type_t)
    (ids : List String) (attr_list : Nat → E.Attr) (object_statuses : Nat → sai_status_t)
    (w : World) (hrec : w.g_record = true) :
    (∃ w1 : World,
        internal_redis_bulk_generic_set E object_type ids attr_list object_statuses w =
          internal_api_wait_for_response E sai_common_api_t.SAI_COMMON_API_CREATE w1 ∧
        w1.recording =
          w.recording ++ [bulk_line_spec E object_type ids attr_list object_statuses]) ∧
      (∃ g : List String,
        (internal_redis_bulk_generic_set E object_type ids attr_list object_statuses
            w).2.recording =
          w.recording ++ bulk_line_spec E object_type ids attr_list object_statuses :: g ∧
        g.length ≤ 1 ∧ ∀ l ∈ g, ∃ r, l = "G|" ++ r) ∧
      bulk_line_spec E object_type [] attr_list object_statuses =
        "S|" ++ E.sai_serialize_object_type object_type := by
  refine ⟨⟨_, bulk_set_eq E object_type ids attr_list object_statuses w, by simp [hrec]⟩,
    ?_, by simp [bulk_line_spec, String.join]⟩
  rw [bulk_set_eq]
  obtain ⟨-, -, g, hg, hlen, -, hG⟩ := wait_frame E sai_common_api_t.SAI_COMMON_API_CREATE
    { w with
      recording := w.recording ++
        (if w.g_record then
          [bulk_line_spec E object_type ids attr_list object_statuses]
        else [])
      published := w.published ++
        (if (payload_spec E object_type ids attr_list object_statuses).length = 0 then []
        else
          [⟨E.sai_serialize_object_type object_type ++ ":" ++
              toString (payload_spec E object_type ids attr_list object_statuses).length,
            payload_spec E object_type ids attr_list object_statuses, "bulkset"⟩]) }
  exact ⟨g, by rw [hg]; simp [hrec], hlen, hG⟩

/-- C10 at a concrete input: two items, the second rejected by the precheck, and a
response already waiting. -/
theorem C10_bulk_record_line_witness :
    (∃ w1 : World,
        internal_redis_bulk_generic_set exampleEnv 2 ["a", "b"]
            (fun i => ("k", toString i))
            (fun i => if i = 1 then SAI_STATUS_FAILURE else SAI_STATUS_SUCCESS)
            (World.init true true [Inbound.message 1 okResponse]) =
          internal_api_wait_for_response exampleEnv sai_common_api_t.SAI_COMMON_API_CREATE w1 ∧
        w1.recording =
          [] ++ ["S|FDB_ENTRY||a|k=0|SAI_STATUS_SUCCESS||b|k=1|SAI_STATUS_FAILURE"]) ∧
      (∃ g : List String,
        (internal_redis_bulk_generic_set exampleEnv 2 ["a", "b"]
            (fun i => ("k", toString i))
            (fun i => if i = 1 then SAI_STATUS_FAILURE else SAI_STATUS_SUCCESS)
            (World.init true true [Inbound.message 1 okResponse])).2.recording =
          [] ++ "S|FDB_ENTRY||a|k=0|SAI_STATUS_SUCCESS||b|k=1|SAI_STATUS_FAILURE" :: g ∧
        g.length ≤ 1 ∧ ∀ l ∈ g, ∃ r, l = "G|" ++ r) ∧
      bulk_line_spec exampleEnv 2 [] (fun i => ("k", toString i))
          (fun i => if i = 1 then SAI_STATUS_FAILURE else SAI_STATUS_SUCCESS) =
        "S|" ++ "FDB_ENTRY" :=
  C10_bulk_record_line exampleEnv 2 ["a", "b"] (fun i => ("k", toString i))
    (fun i => if i = 1 then SAI_STATUS_FAILURE else SAI_STATUS_SUCCESS)
    (World.init true true [Inbound.message 1 okResponse]) rfl

/-! ## The single set, and the two flags -/

/-- The single set is one wait, entered after the record line and the publish. -/
theorem set_eq (E : Env) (object_type : sai_object_type_t) (serialized_object_id : String)
    (attr : E.Attr) (w : World) :
    internal_redis_generic_set E object_type serialized_object_id attr w =
      internal_api_wait_for_response E sai_common_api_t.SAI_COMMON_API_SET
        { w with
          recording := w.recording ++
            (if w.g_record then
              ["s|" ++ (E.sai_serialize_object_type object_type ++ ":" ++ serialized_object_id)
                ++ "|" ++ E.joinFieldValues (E.serialize_attr_list object_type 1 attr false)]
            else [])
          published := w.published ++
            [⟨E.sai_serialize_object_type object_type ++ ":" ++ serialized_object_id,
              E.serialize_attr_list object_type 1 attr false, "set"⟩] } := by
  unfold internal_redis_generic_set
  obtain ⟨sm, rc, inb, pub, recd, sel, pp, el, wt⟩ := w
  cases rc <;> simp [recordLine, asicState_set]

/-- With sync-mode disabled the wait only counts itself. -/
theorem wait_async (E : Env) (api : sai_common_api_t) (w : World)
    (hsync : w.g_syncMode = false) :
    internal_api_wait_for_response E api w =
      (SAI_STATUS_SUCCESS, { w with waits := w.waits + 1 }) := by
  simp [internal_api_wait_for_response, hsync]

/-- The loop started with another recording flag and another recording behaves the
same on everything else. -/
theorem wait_loop_recording_irrelevant (E : Env) (q : List Inbound) (w : World)
    (b : Bool) (r : List String) :
    sameEffects (wait_loop E q { w with g_record := b, recording := r })
      (wait_loop E q w) := by
  induction q generalizing w r with
  | nil =>
    cases b <;> cases hrec : w.g_record <;>
      simp [sameEffects, wait_loop, wait_failed, hrec, recordLine]
  | cons ev rest ih =>
    by_cases hu : unrelatedReady E.GET_RESPONSE_TIMEOUT ev = true
    · rw [wait_loop_unrelated E ev rest _ hu, wait_loop_unrelated E ev rest w hu]
      exact ih (w.afterSkipping [ev]) r
    · by_cases hobj : select E.GET_RESPONSE_TIMEOUT ev = SelectResult.OBJECT
      · have hop : (pop ev).op = "getresponse" := by
          by_contra hne
          exact hu ((unrelatedReady_iff _ _).2 ⟨hobj, hne⟩)
        cases b <;> cases hrec : w.g_record <;>
          simp [sameEffects, wait_loop, hobj, hop, hrec, recordLine]
      · cases b <;> cases hrec : w.g_record <;>
          by_cases herr : select E.GET_RESPONSE_TIMEOUT ev = SelectResult.ERROR <;>
          simp [sameEffects, wait_loop, wait_failed, hobj, herr, hrec, recordLine]

/-- The wait started with another recording flag and another recording behaves the
same on everything else. -/
theorem wait_recording_irrelevant (E : Env) (api : sai_common_api_t) (w : World)
    (b : Bool) (r : List String) :
    sameEffects (internal_api_wait_for_response E api { w with g_record := b, recording := r })
      (internal_api_wait_for_response E api w) := by
  rcases Bool.eq_false_or_eq_true w.g_syncMode with hsync | hsync
  · rw [wait_sync E api w hsync, wait_sync E api { w with g_record := b, recording := r } hsync]
    exact wait_loop_recording_irrelevant E w.inbound { w with waits := w.waits + 1 } b r
  · rw [wait_async E api w hsync,
      wait_async E api { w with g_record := b, recording := r } hsync]
    simp [sameEffects]

/-- Two worlds that differ at most in the recording flag and in the recording give the
same wait, up to the recording. -/
theorem wait_sameEffects_of_agree (E : Env) (api : sai_common_api_t) (w1 w2 : World)
    (h1 : w1.g_syncMode = w2.g_syncMode) (h2 : w1.inbound = w2.inbound)
    (h3 : w1.published = w2.published) (h4 : w1.selects = w2.selects)
    (h5 : w1.popped = w2.popped) (h6 : w1.elapsed = w2.elapsed)
    (h7 : w1.waits = w2.waits) :
    sameEffects (internal_api_wait_for_response E api w1)
      (internal_api_wait_for_response E api w2) := by
  obtain ⟨sm1, rc1, inb1, pub1, recd1, sel1, pp1, el1, wt1⟩ := w1
  obtain ⟨sm2, rc2, inb2, pub2, recd2, sel2, pp2, el2, wt2⟩ := w2
  simp only at h1 h2 h3 h4 h5 h6 h7
  subst h1 h2 h3 h4 h5 h6 h7
  exact wait_recording_irrelevant E api ⟨sm1, rc2, inb1, pub1, recd2, sel1, pp1, el1, wt1⟩
    rc1 recd1

/-- With recording disabled the wait appends nothing. -/
theorem wait_recording_off (E : Env) (api : sai_common_api_t) (w : World)
    (hrec : w.g_record = false) :
    (internal_api_wait_for_response E api w).2.recording = w.recording := by
  obtain ⟨-, -, g, hg, -, hoff, -⟩ := wait_frame E api w
  rw [hg, hoff hrec, List.append_nil]

/-- The single set run with and without recording. -/
theorem set_recording_irrelevant (E : Env) (object_type : sai_object_type_t)
    (serialized_object_id : String) (attr : E.Attr) (w : World) :
    sameEffects
        (internal_redis_generic_set E object_type serialized_object_id attr
          { w with g_record := true })
        (internal_redis_generic_set E object_type serialized_object_id attr
          { w with g_record := false }) ∧
      (internal_redis_generic_set E object_type serialized_object_id attr
          { w with g_record := false }).2.recording = w.recording := by
  rw [set_eq, set_eq]
  constructor
  · apply wait_sameEffects_of_agree <;> rfl
  · rw [wait_recording_off E _ _ rfl]
    simp

/-- The bulk set run with and without recording. -/
theorem bulk_recording_irrelevant (E : Env) (object_type : sai_object_type_t)
    (ids : List String) (attr_list : Nat → E.Attr) (object_statuses : Nat → sai_status_t)
    (w : World) :
    sameEffects
        (internal_redis_bulk_generic_set E object_type ids attr_list object_statuses
          { w with g_record := true })
        (internal_redis_bulk_generic_set E object_type ids attr_list object_statuses
          { w with g_record := false }) ∧
      (internal_redis_bulk_generic_set E object_type ids attr_list object_statuses
          { w with g_record := false }).2.recording = w.recording := by
  rw [bulk_set_eq, bulk_set_eq]
  constructor
  · apply wait_sameEffects_of_agree <;> rfl
  · rw [wait_recording_off E _ _ rfl]
    simp

/-- C7 (recording is a side observer): for every input, every sync-mode value and every
inbound queue, each of `internal_api_wait_for_response`, `internal_redis_generic_set` and
`internal_redis_bulk_generic_set` run with recording enabled and run with recording
disabled returns the same status, makes the same publishes and consumes the same inbound
messages; and with recording disabled the recording is left as it was. -/
theorem C7_recording_is_side_observer (E : Env) (api : sai_common_api_t)
    (object_type : sai_object_type_t) (serialized_object_id : String) (attr : E.Attr)
    (ids : List String) (attr_list : Nat → E.Attr) (object_statuses : Nat → sai_status_t)
    (w : World) :
    (sameEffects
        (internal_api_wait_for_response E api { w with g_record := true })
        (internal_api_wait_for_response E api { w with g_record := false }) ∧
      (internal_api_wait_for_response E api { w with g_record := false }).2.recording =
        w.recording) ∧
    (sameEffects
        (internal_redis_generic_set E object_type serialized_object_id attr
          { w with g_record := true })
        (internal_redis_generic_set E object_type serialized_object_id attr
          { w with g_record := false }) ∧
      (internal_redis_generic_set E object_type serialized_object_id attr
          { w with g_record := false }).2.recording = w.recording) ∧
    (sameEffects
        (internal_redis_bulk_generic_set E object_type ids attr_list object_statuses
          { w with g_record := true })
        (internal_redis_bulk_generic_set E object_type ids attr_list object_statuses
          { w with g_record := false }) ∧
      (internal_redis_bulk_generic_set E object_type ids attr_list object_statuses
          { w with g_record := false }).2.recording = w.recording) :=
  ⟨⟨wait_recording_irrelevant E api { w with g_record := false } true w.recording,
      wait_recording_off E api { w with g_record := false } rfl⟩,
    set_recording_irrelevant E object_type serialized_object_id attr w,
    bulk_recording_irrelevant E object_type ids attr_list object_statuses w⟩

/-- C3 as stated fails: with sync-mode disabled `internal_redis_generic_set` still calls
`g_asicState->set`, so "no Channel interaction at all" does not hold for every input. -/
theorem C3_counterexample_async_set_still_publishes :
    ¬ (∀ (E : Env) (object_type : sai_object_type_t) (serialized_object_id : String)
        (attr : E.Attr) (ids : List String) (attr_list : Nat → E.Attr)
        (object_statuses : Nat → sai_status_t) (w : World),
        w.g_syncMode = false →
        ((internal_redis_generic_set E object_type serialized_object_id attr w).1 =
            SAI_STATUS_SUCCESS ∧
          (internal_redis_generic_set E object_type serialized_object_id attr w).2.published =
            w.published ∧
          (internal_redis_generic_set E object_type serialized_object_id attr w).2.selects =
            w.selects ∧
          (internal_redis_generic_set E object_type serialized_object_id attr w).2.popped =
            w.popped) ∧
        ((internal_redis_bulk_generic_set E object_type ids attr_list object_statuses w).1 =
            SAI_STATUS_SUCCESS ∧
          (internal_redis_bulk_generic_set E object_type ids attr_list object_statuses
            w).2.published = w.published ∧
          (internal_redis_bulk_generic_set E object_type ids attr_list object_statuses
            w).2.selects = w.selects ∧
          (internal_redis_bulk_generic_set E object_type ids attr_list object_statuses
            w).2.popped = w.popped)) := by
  intro h
  have h1 := (h exampleEnv 1 "10.0.0.0/24" ("nexthop", "eth0") []
    (fun _ => ("k", "v")) (fun _ => SAI_STATUS_SUCCESS) (World.init false false []) rfl).1.2.1
  revert h1
  decide

/-- C3, amended: with sync-mode disabled, `internal_redis_generic_set` and
`internal_redis_bulk_generic_set` return `SAI_STATUS_SUCCESS` without any `select` or
`pop` on the response consumer (the inbound queue is untouched); the request is still
published: the single set calls `g_asicState->set` exactly once, tagged "set", and the
bulk set exactly once, tagged "bulkset", when its payload list is not empty and not at
all when it is. -/
theorem C3_async_success_without_waiting (E : Env) (object_type : sai_object_type_t)
    (serialized_object_id : String) (attr : E.Attr) (ids : List String)
    (attr_list : Nat → E.Attr) (object_statuses : Nat → sai_status_t) (w : World)
    (hsync : w.g_syncMode = false) :
    ((internal_redis_generic_set E object_type serialized_object_id attr w).1 =
        SAI_STATUS_SUCCESS ∧
      (internal_redis_generic_set E object_type serialized_object_id attr w).2.selects =
        w.selects ∧
      (internal_redis_generic_set E object_type serialized_object_id attr w).2.popped =
        w.popped ∧
      (internal_redis_generic_set E object_type serialized_object_id attr w).2.inbound =
        w.inbound ∧
      (internal_redis_generic_set E object_type serialized_object_id attr w).2.published =
        w.published ++
          [⟨E.sai_serialize_object_type object_type ++ ":" ++ serialized_object_id,
            E.serialize_attr_list object_type 1 attr false, "set"⟩]) ∧
    ((internal_redis_bulk_generic_set E object_type ids attr_list object_statuses w).1 =
        SAI_STATUS_SUCCESS ∧
      (internal_redis_bulk_generic_set E object_type ids attr_list object_statuses
        w).2.selects = w.selects ∧
      (internal_redis_bulk_generic_set E object_type ids attr_list object_statuses
        w).2.popped = w.popped ∧
      (internal_redis_bulk_generic_set E object_type ids attr_list object_statuses
        w).2.inbound = w.inbound ∧
      (internal_redis_bulk_generic_set E object_type ids attr_list object_statuses
        w).2.published =
        w.published ++
          (if (payload_spec E object_type ids attr_list object_statuses).length = 0 then []
          else
            [⟨E.sai_serialize_object_type object_type ++ ":" ++
                toString (payload_spec E object_type ids attr_list object_statuses).length,
              payload_spec E object_type ids attr_list object_statuses, "bulkset"⟩])) := by
  constructor
  · rw [set_eq]
    simp [internal_api_wait_for_response, hsync]
  · rw [bulk_set_eq]
    simp [internal_api_wait_for_response, hsync]

/-- C3 amended, at a concrete input: sync-mode disabled, a response queued that nobody
reads. -/
theorem C3_async_success_without_waiting_witness :
    ((internal_redis_generic_set exampleEnv 1 "10.0.0.0/24" ("nexthop", "eth0")
          (World.init false false [Inbound.message 0 okResponse])).1 = SAI_STATUS_SUCCESS ∧
      (internal_redis_generic_set exampleEnv 1 "10.0.0.0/24" ("nexthop", "eth0")
          (World.init false false [Inbound.message 0 okResponse])).2.selects = 0 ∧
      (internal_redis_generic_set exampleEnv 1 "10.0.0.0/24" ("nexthop", "eth0")
          (World.init false false [Inbound.message 0 okResponse])).2.popped = [] ∧
      (internal_redis_generic_set exampleEnv 1 "10.0.0.0/24" ("nexthop", "eth0")
          (World.init false false [Inbound.message 0 okResponse])).2.inbound =
        [Inbound.message 0 okResponse] ∧
      (internal_redis_generic_set exampleEnv 1 "10.0.0.0/24" ("nexthop", "eth0")
          (World.init false false [Inbound.message 0 okResponse])).2.published =
        [] ++ [⟨"ROUTE_ENTRY:10.0.0.0/24", [("nexthop", "eth0")], "set"⟩]) ∧
    ((internal_redis_bulk_generic_set exampleEnv 1 ["a", "b"] (fun i => ("k", toString i))
          (fun i => if i = 1 then SAI_STATUS_FAILURE else SAI_STATUS_SUCCESS)
          (World.init false false [Inbound.message 0 okResponse])).1 = SAI_STATUS_SUCCESS ∧
      (internal_redis_bulk_generic_set exampleEnv 1 ["a", "b"] (fun i => ("k", toString i))
          (fun i => if i = 1 then SAI_STATUS_FAILURE else SAI_STATUS_SUCCESS)
          (World.init false false [Inbound.message 0 okResponse])).2.selects = 0 ∧
      (internal_redis_bulk_generic_set exampleEnv 1 ["a", "b"] (fun i => ("k", toString i))
          (fun i => if i = 1 then SAI_STATUS_FAILURE else SAI_STATUS_SUCCESS)
          (World.init false false [Inbound.message 0 okResponse])).2.popped = [] ∧
      (internal_redis_bulk_generic_set exampleEnv 1 ["a", "b"] (fun i => ("k", toString i))
          (fun i => if i = 1 then SAI_STATUS_FAILURE else SAI_STATUS_SUCCESS)
          (World.init false false [Inbound.message 0 okResponse])).2.inbound =
        [Inbound.message 0 okResponse] ∧
      (internal_redis_bulk_generic_set exampleEnv 1 ["a", "b"] (fun i => ("k", toString i))
          (fun i => if i = 1 then SAI_STATUS_FAILURE else SAI_STATUS_SUCCESS)
          (World.init false false [Inbound.message 0 okResponse])).2.published =
        [] ++ [⟨"ROUTE_ENTRY:1", [("a", "k=0")], "bulkset"⟩]) :=
  C3_async_success_without_waiting exampleEnv 1 "10.0.0.0/24" ("nexthop", "eth0")
    ["a", "b"] (fun i => ("k", toString i))
    (fun i => if i = 1 then SAI_STATUS_FAILURE else SAI_STATUS_SUCCESS)
    (World.init false false [Inbound.message 0 okResponse]) rfl

/-! ## The success exit of the wait -/

/-- The whole successful run of the wait: `pre` is popped, then the response. -/
theorem wait_succeeds_after_skipping (E : Env) (api : sai_common_api_t) (w : World)
    (pre : List Inbound) (d : Nat) (kco : KeyOpFieldsValuesTuple) (rest : List Inbound)
    (hsync : w.g_syncMode = true)
    (hq : w.inbound = pre ++ Inbound.message d kco :: rest)
    (hpre : ∀ ev ∈ pre, unrelatedReady E.GET_RESPONSE_TIMEOUT ev = true)
    (hd : d < E.GET_RESPONSE_TIMEOUT)
    (hop : kco.op = "getresponse") :
    (internal_api_wait_for_response E api w).1 = E.sai_deserialize_status kco.key ∧
      (internal_api_wait_for_response E api w).2.popped = w.popped ++ pre.map pop ++ [kco] ∧
      (internal_api_wait_for_response E api w).2.inbound = rest ∧
      (internal_api_wait_for_response E api w).2.selects = w.selects + pre.length + 1 ∧
      (internal_api_wait_for_response E api w).2.published = w.published ∧
      (internal_api_wait_for_response E api w).2.recording =
        w.recording ++
          (if w.g_record then
            ["G|" ++ kco.key ++ "|" ++ E.joinFieldValues kco.fieldsValues]
          else []) := by
  obtain ⟨sm, rc, inb, pub, recd, sel, pp, el, wt⟩ := w
  simp only at hsync hq
  subst hsync hq
  rw [wait_sync E api _ rfl, wait_loop_skip E pre _ _ hpre,
    wait_loop_response E d kco rest _ hd hop]
  simp [World.afterSkipping]

/-- The status the loop returns does not depend on the world it starts from. -/
theorem wait_loop_status_irrelevant (E : Env) (q : List Inbound) (w1 w2 : World) :
    (wait_loop E q w1).1 = (wait_loop E q w2).1 := by
  induction q generalizing w1 w2 with
  | nil => simp [wait_loop, wait_failed]
  | cons ev rest ih =>
    by_cases hu : unrelatedReady E.GET_RESPONSE_TIMEOUT ev = true
    · rw [wait_loop_unrelated E ev rest w1 hu, wait_loop_unrelated E ev rest w2 hu]
      exact ih _ _
    · by_cases hobj : select E.GET_RESPONSE_TIMEOUT ev = SelectResult.OBJECT
      · have hop : (pop ev).op = "getresponse" := by
          by_contra hne
          exact hu ((unrelatedReady_iff _ _).2 ⟨hobj, hne⟩)
        simp [wait_loop, hobj, hop]
      · by_cases herr : select E.GET_RESPONSE_TIMEOUT ev = SelectResult.ERROR <;>
          simp [wait_loop, wait_failed, hobj, herr]

/-- The status of the wait is decided by the sync-mode flag and the inbound queue. -/
theorem wait_status_of_agree (E : Env) (api1 api2 : sai_common_api_t) (w1 w2 : World)
    (h1 : w1.g_syncMode = w2.g_syncMode) (h2 : w1.inbound = w2.inbound) :
    (internal_api_wait_for_response E api1 w1).1 =
      (internal_api_wait_for_response E api2 w2).1 := by
  rcases Bool.eq_false_or_eq_true w2.g_syncMode with hs | hs
  · rw [wait_sync E api1 w1 (h1.trans hs), wait_sync E api2 w2 hs, h2]
    exact wait_loop_status_irrelevant E _ _ _
  · rw [wait_async E api1 w1 (h1.trans hs), wait_async E api2 w2 hs]

/-- A ready message at the head of the queue that the loop does not skip is tagged
"getresponse". -/
theorem ready_not_unrelated {T : Nat} {ev : Inbound}
    (hobj : select T ev = SelectResult.OBJECT) (hu : unrelatedReady T ev = false) :
    ∃ d kco, ev = Inbound.message d kco ∧ d < T ∧ kco.op = "getresponse" := by
  cases ev with
  | message d kco =>
    refine ⟨d, kco, rfl, select_object_delay hobj, ?_⟩
    by_contra hne
    have := (unrelatedReady_iff T (Inbound.message d kco)).2 ⟨hobj, by simpa [pop] using hne⟩
    simp [this] at hu
  | error d =>
    unfold select at hobj
    by_cases hlt : (Inbound.error d).delay < T <;> simp [hlt] at hobj

/-- With sync-mode and recording enabled the wait appends exactly one line, and it
starts with "G|". -/
theorem wait_records_once (E : Env) (api : sai_common_api_t) (w : World)
    (hsync : w.g_syncMode = true) (hrec : w.g_record = true) :
    ∃ r : String, (internal_api_wait_for_response E api w).2.recording =
      w.recording ++ ["G|" ++ r] := by
  have hq := (List.takeWhile_append_dropWhile
    (unrelatedReady E.GET_RESPONSE_TIMEOUT) w.inbound).symm
  have hpre : ∀ ev ∈ w.inbound.takeWhile (unrelatedReady E.GET_RESPONSE_TIMEOUT),
      unrelatedReady E.GET_RESPONSE_TIMEOUT ev = true := fun ev hev => List.mem_takeWhile_imp hev
  by_cases hno : ∀ ev, (w.inbound.dropWhile (unrelatedReady E.GET_RESPONSE_TIMEOUT)).head? =
      some ev → select E.GET_RESPONSE_TIMEOUT ev ≠ SelectResult.OBJECT
  · obtain ⟨-, -, -, -, h5⟩ := wait_fails_after_skipping E api w _ _ hsync hq hpre hno
    exact ⟨"SAI_STATUS_FAILURE", by rw [h5]; simp [hrec]⟩
  · simp only [not_forall, not_not] at hno
    obtain ⟨ev, hev, hobj⟩ := hno
    have hnot := List.head?_dropWhile_not (unrelatedReady E.GET_RESPONSE_TIMEOUT) w.inbound
    rw [hev] at hnot
    obtain ⟨d, kco, rfl, hd, hop⟩ := ready_not_unrelated hobj hnot
    obtain ⟨tl, htl⟩ : ∃ tl, w.inbound.dropWhile (unrelatedReady E.GET_RESPONSE_TIMEOUT) =
        Inbound.message d kco :: tl := by
      cases hdw : w.inbound.dropWhile (unrelatedReady E.GET_RESPONSE_TIMEOUT) with
      | nil => simp [hdw] at hev
      | cons a tl =>
        rw [hdw] at hev
        have : a = Inbound.message d kco := by simpa using hev
        exact ⟨tl, by rw [this]⟩
    rw [htl] at hq
    obtain ⟨-, -, -, -, -, h6⟩ :=
      wait_succeeds_after_skipping E api w _ d kco tl hsync hq hpre hd hop
    refine ⟨kco.key ++ "|" ++ E.joinFieldValues kco.fieldsValues, ?_⟩
    rw [h6]
    simp [hrec, String.append_assoc]

/-! ## The single set: publish, record, result -/

/-- C11 (single set): for every object type, serialized object id and attribute,
`internal_redis_generic_set` publishes exactly once, tagged "set", with key
`serialize object_type ++ ":" ++ serialized_object_id` and with the field/value sequence
the encoder returns for attribute count 1, unchanged; the publish is made before the wait
is entered, and the call returns what `internal_api_wait_for_response` returns. -/
theorem C11_set_publishes_once_then_waits (E : Env) (object_type : sai_object_type_t)
    (serialized_object_id : String) (attr : E.Attr) (w : World) :
    (internal_redis_generic_set E object_type serialized_object_id attr w).2.published =
        w.published ++
          [⟨E.sai_serialize_object_type object_type ++ ":" ++ serialized_object_id,
            E.serialize_attr_list object_type 1 attr false, "set"⟩] ∧
      ∃ w1 : World,
        w1.published =
          w.published ++
            [⟨E.sai_serialize_object_type object_type ++ ":" ++ serialized_object_id,
              E.serialize_attr_list object_type 1 attr false, "set"⟩] ∧
        w1.g_syncMode = w.g_syncMode ∧ w1.inbound = w.inbound ∧
        internal_redis_generic_set E object_type serialized_object_id attr w =
          internal_api_wait_for_response E sai_common_api_t.SAI_COMMON_API_SET w1 := by
  constructor
  · rw [set_eq, (wait_frame E _ _).1]
  · refine ⟨_, ?_, ?_, ?_, set_eq E object_type serialized_object_id attr w⟩ <;> rfl

/-- C12 (single set, recorded): with sync-mode and recording enabled, when the next
inbound message is a ready response tagged "getresponse" with key `k` and no fields,
`internal_redis_generic_set` returns `sai_deserialize_status k` and appends exactly two
lines, "s|" ++ key ++ "|" ++ join (encoded fields) and then "G|" ++ k ++ "|".  The
joiner is not in the file; on the empty field list it is taken to agree with
`joinFieldValues_spec`, which writes nothing. -/
theorem C12_set_records_request_then_response (E : Env) (object_type : sai_object_type_t)
    (serialized_object_id : String) (attr : E.Attr) (w : World) (d : Nat)
    (kco : KeyOpFieldsValuesTuple) (rest : List Inbound)
    (hjoin : E.joinFieldValues [] = joinFieldValues_spec [])
    (hsync : w.g_syncMode = true) (hrec : w.g_record = true)
    (hd : d < E.GET_RESPONSE_TIMEOUT)
    (hop : kco.op = "getresponse") (hfv : kco.fieldsValues = [])
    (hq : w.inbound = Inbound.message d kco :: rest) :
    (internal_redis_generic_set E object_type serialized_object_id attr w).1 =
        E.sai_deserialize_status kco.key ∧
      (internal_redis_generic_set E object_type serialized_object_id attr w).2.recording =
        w.recording ++
          ["s|" ++ (E.sai_serialize_object_type object_type ++ ":" ++ serialized_object_id)
              ++ "|" ++ E.joinFieldValues (E.serialize_attr_list object_type 1 attr false),
            "G|" ++ kco.key ++ "|"] := by
  rw [set_eq]
  obtain ⟨h1, -, -, -, -, h6⟩ := wait_succeeds_after_skipping E
    sai_common_api_t.SAI_COMMON_API_SET
    { w with
      recording := w.recording ++
        (if w.g_record then
          ["s|" ++ (E.sai_serialize_object_type object_type ++ ":" ++ serialized_object_id)
            ++ "|" ++ E.joinFieldValues (E.serialize_attr_list object_type 1 attr false)]
        else [])
      published := w.published ++
        [⟨E.sai_serialize_object_type object_type ++ ":" ++ serialized_object_id,
          E.serialize_attr_list object_type 1 attr false, "set"⟩] }
    [] d kco rest hsync hq (by simp) hd hop
  have hempty : E.joinFieldValues [] = "" := hjoin.trans rfl
  refine ⟨h1, ?_⟩
  rw [h6]
  simp [hrec, hfv, hempty]

/-- C12 at the example of the specification: `set("ROUTE_ENTRY", "10.0.0.0/24",
{nexthop: "eth0"})` answered by a response with status `SUCCESS` and no fields returns
`SAI_STATUS_SUCCESS` and records `s|ROUTE_ENTRY:10.0.0.0/24|nexthop=eth0`, then
`G|SUCCESS|`. -/
theorem C12_set_records_request_then_response_witness :
    (internal_redis_generic_set specExampleEnv 1 "10.0.0.0/24" ("nexthop", "eth0")
        (World.init true true [Inbound.message 3 ⟨"SUCCESS", "getresponse", []⟩])).1 =
      SAI_STATUS_SUCCESS ∧
    (internal_redis_generic_set specExampleEnv 1 "10.0.0.0/24" ("nexthop", "eth0")
        (World.init true true
          [Inbound.message 3 ⟨"SUCCESS", "getresponse", []⟩])).2.recording =
      [] ++ ["s|ROUTE_ENTRY:10.0.0.0/24|nexthop=eth0", "G|SUCCESS|"] :=
  C12_set_records_request_then_response specExampleEnv 1 "10.0.0.0/24" ("nexthop", "eth0")
    (World.init true true [Inbound.message 3 ⟨"SUCCESS", "getresponse", []⟩]) 3
    ⟨"SUCCESS", "getresponse", []⟩ [] rfl rfl rfl (by decide) rfl rfl rfl

/-- C13 (response line): with sync-mode and recording enabled, when the wait returns
through a ready message tagged "getresponse" with key `k` and field/value list `vs`,
after discarding any number of other ready messages, the recording grows by exactly the
one line "G|" ++ k ++ "|" ++ join vs, with `vs` handed to the joiner as received, and by
no line for a discarded message. -/
theorem C13_wait_records_response_line (E : Env) (api : sai_common_api_t) (w : World)
    (pre : List Inbound) (d : Nat) (kco : KeyOpFieldsValuesTuple) (rest : List Inbound)
    (hsync : w.g_syncMode = true) (hrec : w.g_record = true)
    (hpre : ∀ ev ∈ pre, unrelatedReady E.GET_RESPONSE_TIMEOUT ev = true)
    (hd : d < E.GET_RESPONSE_TIMEOUT)
    (hop : kco.op = "getresponse")
    (hq : w.inbound = pre ++ Inbound.message d kco :: rest) :
    (internal_api_wait_for_response E api w).2.recording =
      w.recording ++ ["G|" ++ kco.key ++ "|" ++ E.joinFieldValues kco.fieldsValues] := by
  obtain ⟨-, -, -, -, -, h6⟩ :=
    wait_succeeds_after_skipping E api w pre d kco rest hsync hq hpre hd hop
  rw [h6]
  simp [hrec]

/-- C13 at a concrete input: a notification with fields is discarded, then a response
with two fields arrives. -/
theorem C13_wait_records_response_line_witness :
    (internal_api_wait_for_response exampleEnv sai_common_api_t.SAI_COMMON_API_GET
        (World.init true true
          [Inbound.message 4 ⟨"port", "ntf", [("oper", "up")]⟩,
            Inbound.message 2 ⟨"SAI_STATUS_SUCCESS", "getresponse",
              [("b", "2"), ("a", "1")]⟩])).2.recording =
      [] ++ ["G|SAI_STATUS_SUCCESS|b=2|a=1"] :=
  C13_wait_records_response_line exampleEnv _
    (World.init true true
      [Inbound.message 4 ⟨"port", "ntf", [("oper", "up")]⟩,
        Inbound.message 2 ⟨"SAI_STATUS_SUCCESS", "getresponse", [("b", "2"), ("a", "1")]⟩])
    [Inbound.message 4 ⟨"port", "ntf", [("oper", "up")]⟩] 2
    ⟨"SAI_STATUS_SUCCESS", "getresponse", [("b", "2"), ("a", "1")]⟩ [] rfl rfl (by decide)
    (by decide) rfl rfl

/-! ## Precheck statuses, request lines, and the wait outcome -/

/-- C14 (precheck does not decide the result): for every object-id list, attribute list
and world, the status `internal_redis_bulk_generic_set` returns is the same for any two
precheck-status sequences; and there is a call with a rejected item that returns
`SAI_STATUS_SUCCESS` (two items, the second rejected, a success response queued). -/
theorem C14_bulk_status_ignores_precheck (E : Env) (object_type : sai_object_type_t)
    (ids : List String) (attr_list : Nat → E.Attr)
    (object_statuses object_statuses2 : Nat → sai_status_t) (w : World) :
    (internal_redis_bulk_generic_set E object_type ids attr_list object_statuses w).1 =
        (internal_redis_bulk_generic_set E object_type ids attr_list object_statuses2 w).1 ∧
      ((fun i => if i = 1 then SAI_STATUS_FAILURE else SAI_STATUS_SUCCESS) 1 ≠
          SAI_STATUS_SUCCESS ∧
        (internal_redis_bulk_generic_set exampleEnv 2 ["a", "b"] (fun i => ("k", toString i))
          (fun i => if i = 1 then SAI_STATUS_FAILURE else SAI_STATUS_SUCCESS)
          (World.init true false [Inbound.message 1 okResponse])).1 = SAI_STATUS_SUCCESS) := by
  refine ⟨?_, by decide, by decide⟩
  rw [bulk_set_eq, bulk_set_eq]
  exact wait_status_of_agree E _ _ _ _ rfl rfl

/-- The request line of the single set: with recording enabled it is appended first,
and what follows it are lines of the wait. -/
theorem set_request_line (E : Env) (object_type : sai_object_type_t)
    (serialized_object_id : String) (attr : E.Attr) (w : World)
    (hrec : w.g_record = true) :
    ∃ g : List String,
      (internal_redis_generic_set E object_type serialized_object_id attr w).2.recording =
        w.recording ++
          ("s|" ++ (E.sai_serialize_object_type object_type ++ ":" ++ serialized_object_id)
            ++ "|" ++ E.joinFieldValues (E.serialize_attr_list object_type 1 attr false)) :: g ∧
      g.length ≤ 1 ∧ ∀ l ∈ g, ∃ r, l = "G|" ++ r := by
  rw [set_eq]
  obtain ⟨-, -, g, hg, hlen, -, hG⟩ := wait_frame E sai_common_api_t.SAI_COMMON_API_SET
    { w with
      recording := w.recording ++
        (if w.g_record then
          ["s|" ++ (E.sai_serialize_object_type object_type ++ ":" ++ serialized_object_id)
            ++ "|" ++ E.joinFieldValues (E.serialize_attr_list object_type 1 attr false)]
        else [])
      published := w.published ++
        [⟨E.sai_serialize_object_type object_type ++ ":" ++ serialized_object_id,
          E.serialize_attr_list object_type 1 attr false, "set"⟩] }
  exact ⟨g, by rw [hg]; simp [hrec], hlen, hG⟩

/-- The request line of the bulk set: with recording enabled it is appended first, and
what follows it are lines of the wait. -/
theorem bulk_request_line (E : Env) (object_type : sai_object_type_t)
    (ids : List String) (attr_list : Nat → E.Attr) (object_statuses : Nat → sai_status_t)
    (w : World) (hrec : w.g_record = true) :
    ∃ g : List String,
      (internal_redis_bulk_generic_set E object_type ids attr_list object_statuses
          w).2.recording =
        w.recording ++ bulk_line_spec E object_type ids attr_list object_statuses :: g ∧
      g.length ≤ 1 ∧ ∀ l ∈ g, ∃ r, l = "G|" ++ r := by
  rw [bulk_set_eq]
  obtain ⟨-, -, g, hg, hlen, -, hG⟩ := wait_frame E sai_common_api_t.SAI_COMMON_API_CREATE
    { w with
      recording := w.recording ++
        (if w.g_record then
          [bulk_line_spec E object_type ids attr_list object_statuses]
        else [])
      published := w.published ++
        (if (payload_spec E object_type ids attr_list object_statuses).length = 0 then []
        else
          [⟨E.sai_serialize_object_type object_type ++ ":" ++
              toString (payload_spec E object_type ids attr_list object_statuses).length,
            payload_spec E object_type ids attr_list object_statuses, "bulkset"⟩]) }
  exact ⟨g, by rw [hg]; simp [hrec], hlen, hG⟩

/-- The line right after an old recording. -/
theorem getElem?_after (old : List String) (line : String) (g : List String) :
    (old ++ line :: g)[old.length]? = some line := by
  rw [List.getElem?_append_right (Nat.le_refl _)]
  simp

/-- C15 (recording determinism): two calls of `internal_redis_generic_set`, and two
calls of `internal_redis_bulk_generic_set`, with recording enabled and the same object
type, object ids, attributes and precheck statuses, made in any two worlds (any sync-mode
flag, any inbound queue, any earlier recording), append the same request line: the line
each call adds right after the recording it found is the "s|" line, respectively the
"S|" line, of its arguments. -/
theorem C15_request_line_is_determined (E : Env) (object_type : sai_object_type_t)
    (serialized_object_id : String) (attr : E.Attr) (ids : List String)
    (attr_list : Nat → E.Attr) (object_statuses : Nat → sai_status_t) (w1 w2 : World)
    (h1 : w1.g_record = true) (h2 : w2.g_record = true) :
    ((internal_redis_generic_set E object_type serialized_object_id attr
          w1).2.recording[w1.recording.length]? =
        some ("s|" ++ (E.sai_serialize_object_type object_type ++ ":" ++ serialized_object_id)
          ++ "|" ++ E.joinFieldValues (E.serialize_attr_list object_type 1 attr false)) ∧
      (internal_redis_generic_set E object_type serialized_object_id attr
          w2).2.recording[w2.recording.length]? =
        (internal_redis_generic_set E object_type serialized_object_id attr
          w1).2.recording[w1.recording.length]?) ∧
    ((internal_redis_bulk_generic_set E object_type ids attr_list object_statuses
          w1).2.recording[w1.recording.length]? =
        some (bulk_line_spec E object_type ids attr_list object_statuses) ∧
      (internal_redis_bulk_generic_set E object_type ids attr_list object_statuses
          w2).2.recording[w2.recording.length]? =
        (internal_redis_bulk_generic_set E object_type ids attr_list object_statuses
          w1).2.recording[w1.recording.length]?) := by
  obtain ⟨g1, hs1, -⟩ := set_request_line E object_type serialized_object_id attr w1 h1
  obtain ⟨g2, hs2, -⟩ := set_request_line E object_type serialized_object_id attr w2 h2
  obtain ⟨k1, hb1, -⟩ := bulk_request_line E object_type ids attr_list object_statuses w1 h1
  obtain ⟨k2, hb2, -⟩ := bulk_request_line E object_type ids attr_list object_statuses w2 h2
  rw [hs1, hs2, hb1, hb2]
  simp only [getElem?_after, and_self]

/-- C15 at a concrete input: sync-mode on with a response queued and an empty recording,
against sync-mode off with a recording that already has a line. -/
theorem C15_request_line_is_determined_witness :
    (internal_redis_generic_set exampleEnv 1 "10.0.0.0/24" ("nexthop", "eth0")
        ⟨false, true, [], [], ["old"], 0, [], 0, 0⟩).2.recording[1]? =
      (internal_redis_generic_set exampleEnv 1 "10.0.0.0/24" ("nexthop", "eth0")
        (World.init true true [Inbound.message 1 okResponse])).2.recording[0]? ∧
    (internal_redis_bulk_generic_set exampleEnv 1 ["a"] (fun _ => ("k", "v"))
        (fun _ => SAI_STATUS_FAILURE) ⟨false, true, [], [], ["old"], 0, [], 0, 0⟩).2.recording[1]? =
      (internal_redis_bulk_generic_set exampleEnv 1 ["a"] (fun _ => ("k", "v"))
        (fun _ => SAI_STATUS_FAILURE)
        (World.init true true [Inbound.message 1 okResponse])).2.recording[0]? :=
  have h := C15_request_line_is_determined exampleEnv 1 "10.0.0.0/24" ("nexthop", "eth0")
    ["a"] (fun _ => ("k", "v")) (fun _ => SAI_STATUS_FAILURE)
    (World.init true true [Inbound.message 1 okResponse])
    ⟨false, true, [], [], ["old"], 0, [], 0, 0⟩ rfl rfl
  ⟨h.1.2, h.2.2⟩

/-- C16 (one wait outcome per call): with sync-mode and recording enabled, every call
of `internal_redis_generic_set` and of `internal_redis_bulk_generic_set` appends exactly
two lines, its request line ("s|..." or "S|...") and then one line that starts with
"G|", whatever the number of batch items and of discarded inbound messages. -/
theorem C16_two_lines_per_call (E : Env) (object_type : sai_object_type_t)
    (serialized_object_id : String) (attr : E.Attr) (ids : List String)
    (attr_list : Nat → E.Attr) (object_statuses : Nat → sai_status_t) (w : World)
    (hsync : w.g_syncMode = true) (hrec : w.g_record = true) :
    (∃ r : String,
      (internal_redis_generic_set E object_type serialized_object_id attr w).2.recording =
        w.recording ++
          ["s|" ++ (E.sai_serialize_object_type object_type ++ ":" ++ serialized_object_id)
              ++ "|" ++ E.joinFieldValues (E.serialize_attr_list object_type 1 attr false),
            "G|" ++ r]) ∧
    (∃ r : String,
      (internal_redis_bulk_generic_set E object_type ids attr_list object_statuses
          w).2.recording =
        w.recording ++
          ["S|" ++ E.sai_serialize_object_type object_type ++
              bulk_joined (audit_spec E object_type ids attr_list object_statuses),
            "G|" ++ r]) := by
  constructor
  · rw [set_eq]
    obtain ⟨r, hr⟩ := wait_records_once E sai_common_api_t.SAI_COMMON_API_SET
      { w with
        recording := w.recording ++
          (if w.g_record then
            ["s|" ++ (E.sai_serialize_object_type object_type ++ ":" ++ serialized_object_id)
              ++ "|" ++ E.joinFieldValues (E.serialize_attr_list object_type 1 attr false)]
          else [])
        published := w.published ++
          [⟨E.sai_serialize_object_type object_type ++ ":" ++ serialized_object_id,
            E.serialize_attr_list object_type 1 attr false, "set"⟩] } hsync hrec
    exact ⟨r, by rw [hr]; simp [hrec]⟩
  · rw [bulk_set_eq, bulk_line_eq]
    obtain ⟨r, hr⟩ := wait_records_once E sai_common_api_t.SAI_COMMON_API_CREATE
      { w with
        recording := w.recording ++
          (if w.g_record then
            [bulk_line_spec E object_type ids attr_list object_statuses]
          else [])
        published := w.published ++
          (if (payload_spec E object_type ids attr_list object_statuses).length = 0 then []
          else
            [⟨E.sai_serialize_object_type object_type ++ ":" ++
                toString (payload_spec E object_type ids attr_list object_statuses).length,
              payload_spec E object_type ids attr_list object_statuses, "bulkset"⟩]) }
      hsync hrec
    exact ⟨r, by rw [hr]; simp [hrec]⟩

/-- C16 at a concrete input: a batch of three items behind two notifications that are
discarded before the response. -/
theorem C16_two_lines_per_call_witness :
    (∃ r : String,
      (internal_redis_generic_set exampleEnv 1 "10.0.0.0/24" ("nexthop", "eth0")
          (World.init true true
            [Inbound.message 1 notifyMsg, Inbound.message 1 notifyMsg,
              Inbound.message 1 okResponse])).2.recording =
        [] ++ ["s|ROUTE_ENTRY:10.0.0.0/24|nexthop=eth0", "G|" ++ r]) ∧
    (∃ r : String,
      (internal_redis_bulk_generic_set exampleEnv 1 ["a", "b", "c"]
          (fun i => ("k", toString i))
          (fun i => if i = 1 then SAI_STATUS_FAILURE else SAI_STATUS_SUCCESS)
          (World.init true true
            [Inbound.message 1 notifyMsg, Inbound.message 1 notifyMsg,
              Inbound.message 1 okResponse])).2.recording =
        [] ++
          ["S|ROUTE_ENTRY||a|k=0|SAI_STATUS_SUCCESS||b|k=1|SAI_STATUS_FAILURE||c|k=2|SAI_STATUS_SUCCESS",
            "G|" ++ r]) :=
  C16_two_lines_per_call exampleEnv 1 "10.0.0.0/24" ("nexthop", "eth0") ["a", "b", "c"]
    (fun i => ("k", toString i))
    (fun i => if i = 1 then SAI_STATUS_FAILURE else SAI_STATUS_SUCCESS)
    (World.init true true
      [Inbound.message 1 notifyMsg, Inbound.message 1 notifyMsg, Inbound.message 1 okResponse])
    rfl rfl

/-- C17 (the api argument is not used for correlation): for any two `api` values and any
world, `internal_api_wait_for_response` returns the same status and leaves the same
world (same consumed messages, same recording); in particular the single set, which
passes `SAI_COMMON_API_SET`, and the bulk set, which passes `SAI_COMMON_API_CREATE`, wait
alike.  A ready message tagged "set" is discarded by a wait for `SAI_COMMON_API_SET`
like any other message not tagged "getresponse". -/
theorem C17_api_argument_is_ignored (E : Env) (api1 api2 : sai_common_api_t) (w : World) :
    internal_api_wait_for_response E api1 w = internal_api_wait_for_response E api2 w ∧
      internal_api_wait_for_response E sai_common_api_t.SAI_COMMON_API_SET w =
        internal_api_wait_for_response E sai_common_api_t.SAI_COMMON_API_CREATE w ∧
      internal_api_wait_for_response exampleEnv sai_common_api_t.SAI_COMMON_API_SET
          (World.init true true
            [Inbound.message 0 ⟨"SAI_STATUS_FAILURE", "set", []⟩,
              Inbound.message 0 okResponse]) =
        (SAI_STATUS_SUCCESS,
          ⟨true, true, [], [], ["G|SAI_STATUS_SUCCESS|"], 2,
            [⟨"SAI_STATUS_FAILURE", "set", []⟩, okResponse], 0, 1⟩) :=
  ⟨rfl, rfl, by decide⟩

/-! ## What the wait consumes -/

theorem messagesOf_later (t : Nat) (ev : Inbound) (rest : List Inbound) :
    messagesOf (ev.later t :: rest) = messagesOf (ev :: rest) := by
  cases ev <;> rfl

/-- On the failure exit no message leaves the queue. -/
theorem wait_loop_no_object_inbound (E : Env) (q : List Inbound) (w : World)
    (h : ∀ ev, q.head? = some ev → select E.GET_RESPONSE_TIMEOUT ev ≠ SelectResult.OBJECT) :
    messagesOf (wait_loop E q w).2.inbound = messagesOf q := by
  cases q with
  | nil => cases hrec : w.g_record <;> simp [wait_loop, wait_failed, hrec, recordLine]
  | cons ev rest =>
    have hsel := h ev rfl
    by_cases herr : select E.GET_RESPONSE_TIMEOUT ev = SelectResult.ERROR
    · have hev : ∃ d, ev = Inbound.error d := by
        cases ev with
        | message d kco =>
          unfold select at herr
          by_cases hlt : (Inbound.message d kco).delay < E.GET_RESPONSE_TIMEOUT <;>
            simp [hlt] at herr
        | error d => exact ⟨d, rfl⟩
      obtain ⟨d, rfl⟩ := hev
      cases hrec : w.g_record <;>
        simp [wait_loop, wait_failed, hsel, herr, hrec, recordLine, messagesOf]
    · cases hrec : w.g_record <;>
        simp [wait_loop, wait_failed, hsel, herr, hrec, recordLine, messagesOf_later]

/-- The failing run of the wait leaves the messages behind the popped run queued. -/
theorem wait_fails_inbound (E : Env) (api : sai_common_api_t) (w : World)
    (pre rest : List Inbound)
    (hsync : w.g_syncMode = true)
    (hq : w.inbound = pre ++ rest)
    (hpre : ∀ ev ∈ pre, unrelatedReady E.GET_RESPONSE_TIMEOUT ev = true)
    (hrest : ∀ ev, rest.head? = some ev →
      select E.GET_RESPONSE_TIMEOUT ev ≠ SelectResult.OBJECT) :
    messagesOf (internal_api_wait_for_response E api w).2.inbound = messagesOf rest := by
  obtain ⟨sm, rc, inb, pub, recd, sel, pp, el, wt⟩ := w
  simp only at hsync hq
  subst hsync hq
  rw [wait_sync E api _ rfl, wait_loop_skip E pre _ _ hpre]
  exact wait_loop_no_object_inbound E rest _ hrest

/-- C18 (the wait consumes a leading part of the queue): with sync-mode enabled and an
inbound queue that starts with a run `pre` of ready messages not tagged "getresponse":
if a ready message tagged "getresponse" follows, exactly the messages of `pre` and that
message are popped, in order, and everything behind it stays queued as it was; if the
next `select` does not return `OBJECT`, exactly the messages of `pre` are popped and the
messages behind them stay queued in their order. -/
theorem C18_wait_consumes_leading_messages (E : Env) (api : sai_common_api_t) (w : World)
    (pre rest : List Inbound)
    (hsync : w.g_syncMode = true)
    (hq : w.inbound = pre ++ rest)
    (hpre : ∀ ev ∈ pre, unrelatedReady E.GET_RESPONSE_TIMEOUT ev = true) :
    (∀ d kco tl, rest = Inbound.message d kco :: tl → d < E.GET_RESPONSE_TIMEOUT →
        kco.op = "getresponse" →
        (internal_api_wait_for_response E api w).2.popped = w.popped ++ pre.map pop ++ [kco] ∧
          ((internal_api_wait_for_response E api w).2.popped.length =
            w.popped.length + (pre.length + 1)) ∧
          (internal_api_wait_for_response E api w).2.inbound = tl) ∧
      ((∀ ev, rest.head? = some ev →
          select E.GET_RESPONSE_TIMEOUT ev ≠ SelectResult.OBJECT) →
        (internal_api_wait_for_response E api w).2.popped = w.popped ++ pre.map pop ∧
          ((internal_api_wait_for_response E api w).2.popped.length =
            w.popped.length + pre.length) ∧
          messagesOf (internal_api_wait_for_response E api w).2.inbound =
            messagesOf rest) := by
  constructor
  · intro d kco tl hrest hd hop
    subst hrest
    obtain ⟨-, h2, h3, -⟩ :=
      wait_succeeds_after_skipping E api w pre d kco tl hsync hq hpre hd hop
    refine ⟨h2, ?_, h3⟩
    rw [h2]
    simp [Nat.add_assoc]
  · intro hrest
    obtain ⟨-, -, h3, -⟩ := wait_fails_after_skipping E api w pre rest hsync hq hpre hrest
    refine ⟨h3, ?_, wait_fails_inbound E api w pre rest hsync hq hpre hrest⟩
    rw [h3]
    simp

/-- C18 at two concrete inputs: the response is third of four ready messages; and the
multiplexer fails after one notification, with a message still behind. -/
theorem C18_wait_consumes_leading_messages_witness :
    ((internal_api_wait_for_response exampleEnv sai_common_api_t.SAI_COMMON_API_SET
          (World.init true false
            [Inbound.message 1 notifyMsg, Inbound.message 2 ⟨"x", "flush", []⟩,
              Inbound.message 3 okResponse, Inbound.message 4 notifyMsg])).2.popped =
        [] ++ [notifyMsg, ⟨"x", "flush", []⟩] ++ [okResponse] ∧
      (internal_api_wait_for_response exampleEnv sai_common_api_t.SAI_COMMON_API_SET
          (World.init true false
            [Inbound.message 1 notifyMsg, Inbound.message 2 ⟨"x", "flush", []⟩,
              Inbound.message 3 okResponse, Inbound.message 4 notifyMsg])).2.inbound =
        [Inbound.message 4 notifyMsg]) ∧
    ((internal_api_wait_for_response exampleEnv sai_common_api_t.SAI_COMMON_API_SET
          (World.init true false
            [Inbound.message 1 notifyMsg, Inbound.error 2,
              Inbound.message 3 okResponse])).2.popped = [] ++ [notifyMsg] ∧
      messagesOf (internal_api_wait_for_response exampleEnv
          sai_common_api_t.SAI_COMMON_API_SET
          (World.init true false
            [Inbound.message 1 notifyMsg, Inbound.error 2,
              Inbound.message 3 okResponse])).2.inbound = [okResponse]) :=
  have h1 := (C18_wait_consumes_leading_messages exampleEnv
    sai_common_api_t.SAI_COMMON_API_SET
    (World.init true false
      [Inbound.message 1 notifyMsg, Inbound.message 2 ⟨"x", "flush", []⟩,
        Inbound.message 3 okResponse, Inbound.message 4 notifyMsg])
    [Inbound.message 1 notifyMsg, Inbound.message 2 ⟨"x", "flush", []⟩]
    [Inbound.message 3 okResponse, Inbound.message 4 notifyMsg] rfl rfl (by decide)).1
    3 okResponse [Inbound.message 4 notifyMsg] rfl (by decide) rfl
  have h2 := (C18_wait_consumes_leading_messages exampleEnv
    sai_common_api_t.SAI_COMMON_API_SET
    (World.init true false
      [Inbound.message 1 notifyMsg, Inbound.error 2, Inbound.message 3 okResponse])
    [Inbound.message 1 notifyMsg] [Inbound.error 2, Inbound.message 3 okResponse]
    rfl rfl (by decide)).2 (by decide)
  ⟨⟨h1.1, h1.2.2⟩, ⟨h2.1, h2.2.2⟩⟩

end SaiRedis
